import Mathlib

/-!
# Verification of `ray.serve` configuration handling

A shallow embedding of `python/ray/serve/config.py`: the `AutoscalingConfig`,
`DeploymentConfig` and `ReplicaConfig` value objects, their pydantic-style
validation, and their conversion to and from the protobuf wire format.

Modelling conventions:

* Python objects that flow through the config payloads are modelled by the
  inductive `PyVal`.  Byte strings are `PyVal` constructors: `vbytesRaw s` is a
  byte string whose content is the UTF-8 encoding of `s`, and `vbytesPickled v`
  is the byte string produced by `cloudpickle.dumps v`.  The cloudpickle
  contract `loads (dumps v) = v` is then definitional, and `dumps` never
  produces the empty byte string (the empty-bytes wire sentinel).
* Python numbers appearing in resource quantities are modelled by `ℚ`
  (the concrete quantities exercised here, such as `0.5`, `1`, `2`, are exact
  in both binary floating point and `ℚ`).
* Protobuf `SerializeToString`/`FromString` are mutually inverse, so the wire
  bytes of a message are identified with the message itself: `to_proto_bytes`
  and `from_proto_bytes` act on the proto structures directly.
* pydantic semantics: construction validates every field (field type
  constraints such as `NonNegativeInt` plus the declared `@validator`s) and
  fails with a `ValidationError` ("InvalidConfig") if any check fails.
  Assignment to a field re-validates only when the model's inner `Config`
  sets `validate_assignment = True` (`DeploymentConfig` does;
  `AutoscalingConfig` declares no inner `Config`, so it uses the pydantic
  default and assignment does not validate).
-/

/-- A Python runtime value, as far as the config payloads need.
`vnone` is Python `None`; `vbytesRaw s` is a byte string with UTF-8 content
`s`; `vbytesPickled v` is the byte string `cloudpickle.dumps v`. -/
inductive PyVal where
  | vnone
  | vbool (b : Bool)
  | vint (n : Int)
  | vrat (q : ℚ)
  | vstr (s : String)
  | vtuple (elems : List PyVal)
  | vlist (elems : List PyVal)
  | vdict (entries : List (String × PyVal))
  | vfunc (name : String)
  | vclass (name : String)
  | vbytesRaw (content : String)
  | vbytesPickled (v : PyVal)
deriving Repr

/-- `v is None` on the model values (used by the lazy-accessor cache
checks, which test the cache slot against Python `None`). -/
def PyVal.isNone : PyVal → Bool
  | .vnone => true
  | _ => false

/-- `inspect.isfunction` on the model values. -/
def PyVal.isFunction : PyVal → Bool
  | .vfunc _ => true
  | _ => false

/-- `isinstance(v, Callable)`: functions and classes are callable. -/
def PyVal.isCallable : PyVal → Bool
  | .vfunc _ => true
  | .vclass _ => true
  | _ => false

/-- `isinstance(v, str)`. -/
def PyVal.isString : PyVal → Bool
  | .vstr _ => true
  | _ => false

/-- `isinstance(v, bytes)`. -/
def PyVal.isBytes : PyVal → Bool
  | .vbytesRaw _ => true
  | .vbytesPickled _ => true
  | _ => false

/-- Python truthiness of a value (`if v:`). -/
def PyVal.truthy : PyVal → Bool
  | .vnone => false
  | .vbool b => b
  | .vint n => decide (n ≠ 0)
  | .vrat q => decide (q ≠ 0)
  | .vstr s => decide (s ≠ "")
  | .vtuple l => !l.isEmpty
  | .vlist l => !l.isEmpty
  | .vdict l => !l.isEmpty
  | .vfunc _ => true
  | .vclass _ => true
  | .vbytesRaw s => decide (s ≠ "")
  | .vbytesPickled _ => true

mutual

/-- Whether `json.dumps` succeeds on the value (`user_config` validator). -/
def PyVal.jsonOk : PyVal → Bool
  | .vnone => true
  | .vbool _ => true
  | .vint _ => true
  | .vrat _ => true
  | .vstr _ => true
  | .vtuple l => PyVal.jsonOkList l
  | .vlist l => PyVal.jsonOkList l
  | .vdict l => PyVal.jsonOkEntries l
  | .vfunc _ => false
  | .vclass _ => false
  | .vbytesRaw _ => false
  | .vbytesPickled _ => false

/-- `jsonOk` on every element of a list. -/
def PyVal.jsonOkList : List PyVal → Bool
  | [] => true
  | v :: rest => PyVal.jsonOk v && PyVal.jsonOkList rest

/-- `jsonOk` on every value of a dict. -/
def PyVal.jsonOkEntries : List (String × PyVal) → Bool
  | [] => true
  | (_, v) :: rest => PyVal.jsonOk v && PyVal.jsonOkEntries rest

end

/-- Errors surfaced by validation and the wire codec.  Each Python `raise`
site maps to one constructor; constructors carry the data that the source
interpolates into the exception message. -/
inductive ConfigError where
  | invalidConfig
  | invalidOption (key : String) (valid : List String)
  | typeMismatch
  | serializationError
  | invalidStrategy (s : String) (valid : List String)
  | strategyWithoutBundles
  | invalidBundles
  | insufficientBundleResource (resName : String) (actorVal bundleVal : ℚ)
deriving DecidableEq, Repr

/-- `cloudpickle.dumps` / `ray._private.serialization.pickle_dumps`. -/
def pickleDumps (v : PyVal) : PyVal := .vbytesPickled v

/-- `cloudpickle.loads`: inverts `pickleDumps`; anything that is not a pickled
byte string fails to unpickle. -/
def cloudpickleLoads : PyVal → Except ConfigError PyVal
  | .vbytesPickled v => .ok v
  | _ => .error .serializationError

/-- `bytes.decode(encoding="utf-8")` on the model byte strings. -/
def utf8Decode : PyVal → Except ConfigError String
  | .vbytesRaw s => .ok s
  | _ => .error .serializationError

/-- Whether a proto `bytes` field holds the empty byte string (the "unset"
sentinel).  `cloudpickle.dumps` output is never empty. -/
def isEmptyBytes : PyVal → Bool
  | .vbytesRaw s => s == ""
  | _ => false

/-- The `DeploymentLanguage` enum from the generated protobuf module
(values `PYTHON` and `JAVA`, as used by `config.py`). -/
inductive DeploymentLanguage where
  | PYTHON
  | JAVA
deriving DecidableEq, Repr

/-- `_needs_pickle(deployment_language, is_cross_language)` from
`config.py`: Python client deploying Python replicas, or Python client
deploying Java replicas via xlang cloudpickle serialization. -/
def _needs_pickle (deployment_language : DeploymentLanguage)
    (is_cross_language : Bool) : Bool :=
  if deployment_language = .PYTHON && !is_cross_language then true
  else if deployment_language = .JAVA && is_cross_language then true
  else false

/-- `AutoscalingConfig` field values.  Replica counts are `Int` so that the
pydantic type constraints (`NonNegativeInt`, `PositiveInt`) are explicit
checks of the validation function rather than typing artefacts (and so that
an unvalidated assignment can store an out-of-range value, as pydantic does
when `validate_assignment` is off). -/
structure AutoscalingConfig where
  min_replicas : Int
  initial_replicas : Option Int
  max_replicas : Int
  target_num_ongoing_requests_per_replica : ℚ
  metrics_interval_s : ℚ
  look_back_period_s : ℚ
  smoothing_factor : ℚ
  downscale_delay_s : ℚ
  upscale_delay_s : ℚ
deriving DecidableEq, Repr

/-- All pydantic checks of `AutoscalingConfig`: the per-field type
constraints (`NonNegativeInt min_replicas`, `Optional[NonNegativeInt]
initial_replicas`, `PositiveInt max_replicas`, `PositiveFloat` /
`NonNegativeFloat` tuning fields) and the `replicas_settings_valid`
validator relating the three replica bounds. -/
def AutoscalingConfig.validB (c : AutoscalingConfig) : Bool :=
  decide (0 ≤ c.min_replicas)
    && (match c.initial_replicas with
        | none => true
        | some i => decide (0 ≤ i))
    && decide (1 ≤ c.max_replicas)
    && decide (c.min_replicas ≤ c.max_replicas)
    && (match c.initial_replicas with
        | none => true
        | some i => decide (c.min_replicas ≤ i) && decide (i ≤ c.max_replicas))
    && decide (0 < c.target_num_ongoing_requests_per_replica)
    && decide (0 < c.metrics_interval_s)
    && decide (0 < c.look_back_period_s)
    && decide (0 < c.smoothing_factor)
    && decide (0 ≤ c.downscale_delay_s)
    && decide (0 ≤ c.upscale_delay_s)

/-- Constructing an `AutoscalingConfig`: pydantic validates every field and
the `replicas_settings_valid` validator; any violation raises a
`ValidationError` (the spec's `InvalidConfig`). -/
def AutoscalingConfig.construct (min_replicas : Int)
    (initial_replicas : Option Int) (max_replicas : Int)
    (target : ℚ) (metrics : ℚ) (look_back : ℚ) (smoothing : ℚ)
    (down : ℚ) (up : ℚ) : Except ConfigError AutoscalingConfig :=
  let c : AutoscalingConfig :=
    { min_replicas := min_replicas
      initial_replicas := initial_replicas
      max_replicas := max_replicas
      target_num_ongoing_requests_per_replica := target
      metrics_interval_s := metrics
      look_back_period_s := look_back
      smoothing_factor := smoothing
      downscale_delay_s := down
      upscale_delay_s := up }
  if c.validB then .ok c else .error .invalidConfig

/-- Field assignment on `AutoscalingConfig`.  The class declares no inner
`Config`, so pydantic's defaults apply: mutation is allowed and
`validate_assignment` is off — the new value is stored without any
re-validation. -/
def AutoscalingConfig.set_max_replicas (c : AutoscalingConfig)
    (v : Int) : AutoscalingConfig :=
  { c with max_replicas := v }

/-- Field assignment for `min_replicas`; as for `set_max_replicas`,
no validation runs. -/
def AutoscalingConfig.set_min_replicas (c : AutoscalingConfig)
    (v : Int) : AutoscalingConfig :=
  { c with min_replicas := v }

/-- The wire message for `AutoscalingConfig` (`serve.proto`, nested inside
`DeploymentConfig`).  Modelled from the spec: the generated protobuf module
is not among the shown sources; per the spec the wire message carries named,
typed fields matching the data model, with `initial_replicas` optional. -/
structure AutoscalingConfigProto where
  min_replicas : Int
  initial_replicas : Option Int
  max_replicas : Int
  target_num_ongoing_requests_per_replica : ℚ
  metrics_interval_s : ℚ
  look_back_period_s : ℚ
  smoothing_factor : ℚ
  downscale_delay_s : ℚ
  upscale_delay_s : ℚ
deriving DecidableEq, Repr

/-- Nested encoding `AutoscalingConfigProto(**data)`: a field-for-field copy. -/
def AutoscalingConfig.to_proto (c : AutoscalingConfig) : AutoscalingConfigProto :=
  { min_replicas := c.min_replicas
    initial_replicas := c.initial_replicas
    max_replicas := c.max_replicas
    target_num_ongoing_requests_per_replica :=
      c.target_num_ongoing_requests_per_replica
    metrics_interval_s := c.metrics_interval_s
    look_back_period_s := c.look_back_period_s
    smoothing_factor := c.smoothing_factor
    downscale_delay_s := c.downscale_delay_s
    upscale_delay_s := c.upscale_delay_s }

/-- Nested decoding `AutoscalingConfig(**data["autoscaling_config"])`:
pydantic re-validates the reconstructed model. -/
def AutoscalingConfig.from_proto (p : AutoscalingConfigProto) :
    Except ConfigError AutoscalingConfig :=
  AutoscalingConfig.construct p.min_replicas p.initial_replicas p.max_replicas
    p.target_num_ongoing_requests_per_replica p.metrics_interval_s
    p.look_back_period_s p.smoothing_factor p.downscale_delay_s
    p.upscale_delay_s

/-- `DeploymentConfig` field values after construction.
`max_concurrent_queries` is `Int` (its default fill and positivity are
enforced by the `set_max_queries_by_mode` validator, not the type);
`user_config` is `PyVal.vnone` for Python `None`. -/
structure DeploymentConfig where
  num_replicas : Nat
  max_concurrent_queries : Int
  user_config : PyVal
  graceful_shutdown_timeout_s : ℚ
  graceful_shutdown_wait_loop_s : ℚ
  health_check_period_s : ℚ
  health_check_timeout_s : ℚ
  autoscaling_config : Option AutoscalingConfig
  is_cross_language : Bool
  deployment_language : DeploymentLanguage
  version : Option String
  user_configured_option_names : List String
deriving Repr

/-- The `user_config_json_serializable` validator: raw bytes pass through,
any other non-`None` value must survive `json.dumps`. -/
def DeploymentConfig.userConfigOk : PyVal → Bool
  | .vnone => true
  | v => v.isBytes || v.jsonOk

/-- All pydantic field checks of `DeploymentConfig` on already-stored
values: `NonNegativeInt num_replicas` (enforced by the `Nat` type),
`max_concurrent_queries ≥ 1` (from `set_max_queries_by_mode`, which
default-fills `None` before storage), the `user_config` serializability
validator, and the `NonNegativeFloat`/`PositiveFloat` duration fields.
An already-constructed nested `AutoscalingConfig` instance is not
re-validated by pydantic. -/
def DeploymentConfig.validB (c : DeploymentConfig) : Bool :=
  decide (1 ≤ c.max_concurrent_queries)
    && DeploymentConfig.userConfigOk c.user_config
    && decide (0 ≤ c.graceful_shutdown_timeout_s)
    && decide (0 ≤ c.graceful_shutdown_wait_loop_s)
    && decide (0 < c.health_check_period_s)
    && decide (0 < c.health_check_timeout_s)

/-- `DeploymentConfig.needs_pickle()`. -/
def DeploymentConfig.needs_pickle (c : DeploymentConfig) : Bool :=
  _needs_pickle c.deployment_language c.is_cross_language

/-- The wire message for `DeploymentConfig` (`serve.proto`).  Modelled from
the spec: a binary message with named, typed fields matching the data model;
optional `version` is an empty-string sentinel and `user_config` an
empty-bytes sentinel; `user_configured_option_names` is a repeated string
field. -/
structure DeploymentConfigProto where
  num_replicas : Nat
  max_concurrent_queries : Int
  user_config : PyVal
  graceful_shutdown_timeout_s : ℚ
  graceful_shutdown_wait_loop_s : ℚ
  health_check_period_s : ℚ
  health_check_timeout_s : ℚ
  autoscaling_config : Option AutoscalingConfigProto
  is_cross_language : Bool
  deployment_language : DeploymentLanguage
  version : String
  user_configured_option_names : List String
deriving Repr

/-- `DeploymentConfig.to_proto`: `user_config` is cloudpickled when
`needs_pickle()`, otherwise passed through (the protobuf `bytes` field
accepts only byte strings, so a non-bytes pass-through value raises a
protobuf `TypeError`); `None` leaves the proto field at its empty default;
a present `autoscaling_config` is nested-encoded; `version=None` encodes as
the proto string default `""`. -/
def DeploymentConfig.to_proto (c : DeploymentConfig) :
    Except ConfigError DeploymentConfigProto :=
  let ucResult : Except ConfigError PyVal :=
    if c.user_config.isNone then .ok (.vbytesRaw "")
    else if c.needs_pickle then .ok (pickleDumps c.user_config)
    else if c.user_config.isBytes then .ok c.user_config
    else .error .typeMismatch
  match ucResult with
  | .error e => .error e
  | .ok uc =>
    .ok { num_replicas := c.num_replicas
          max_concurrent_queries := c.max_concurrent_queries
          user_config := uc
          graceful_shutdown_timeout_s := c.graceful_shutdown_timeout_s
          graceful_shutdown_wait_loop_s := c.graceful_shutdown_wait_loop_s
          health_check_period_s := c.health_check_period_s
          health_check_timeout_s := c.health_check_timeout_s
          autoscaling_config := c.autoscaling_config.map AutoscalingConfig.to_proto
          is_cross_language := c.is_cross_language
          deployment_language := c.deployment_language
          version := c.version.getD ""
          user_configured_option_names := c.user_configured_option_names }

/-- `DeploymentConfig.from_proto`: an empty `user_config` field decodes to
`None`; otherwise the decode path is chosen by re-deriving `_needs_pickle`
from the decoded language fields (cloudpickle versus raw-bytes
pass-through); empty `version` decodes to `None`; a present nested
autoscaling message is re-validated; finally `cls(**data)` re-runs the
pydantic field validators. -/
def DeploymentConfig.from_proto (p : DeploymentConfigProto) :
    Except ConfigError DeploymentConfig :=
  let ucResult : Except ConfigError PyVal :=
    if isEmptyBytes p.user_config then .ok .vnone
    else if _needs_pickle p.deployment_language p.is_cross_language then
      cloudpickleLoads p.user_config
    else .ok p.user_config
  match ucResult with
  | .error e => .error e
  | .ok uc =>
    let acResult : Except ConfigError (Option AutoscalingConfig) :=
      match p.autoscaling_config with
      | none => .ok none
      | some ap =>
        match AutoscalingConfig.from_proto ap with
        | .ok a => .ok (some a)
        | .error e => .error e
    match acResult with
    | .error e => .error e
    | .ok ac =>
      let c : DeploymentConfig :=
        { num_replicas := p.num_replicas
          max_concurrent_queries := p.max_concurrent_queries
          user_config := uc
          graceful_shutdown_timeout_s := p.graceful_shutdown_timeout_s
          graceful_shutdown_wait_loop_s := p.graceful_shutdown_wait_loop_s
          health_check_period_s := p.health_check_period_s
          health_check_timeout_s := p.health_check_timeout_s
          autoscaling_config := ac
          is_cross_language := p.is_cross_language
          deployment_language := p.deployment_language
          version := if p.version = "" then none else some p.version
          user_configured_option_names := p.user_configured_option_names }
      if c.validB then .ok c else .error .invalidConfig

/-- `to_proto_bytes`: protobuf `SerializeToString` composed with `to_proto`;
the wire bytes are identified with the message. -/
def DeploymentConfig.to_proto_bytes (c : DeploymentConfig) :
    Except ConfigError DeploymentConfigProto :=
  c.to_proto

/-- `from_proto_bytes`: protobuf `FromString` composed with `from_proto`. -/
def DeploymentConfig.from_proto_bytes (p : DeploymentConfigProto) :
    Except ConfigError DeploymentConfig :=
  DeploymentConfig.from_proto p

/-- `DeploymentConfig.from_proto_bytes(c.to_proto_bytes())`. -/
def DeploymentConfig.roundtrip (c : DeploymentConfig) :
    Except ConfigError DeploymentConfig :=
  match c.to_proto_bytes with
  | .error e => .error e
  | .ok p => DeploymentConfig.from_proto_bytes p

/-- A value stored in `ray_actor_options`: a numeric option (`num_cpus`,
`num_gpus`, `memory`, ...), a custom-resources map (`resources`), a string
option (`accelerator_type`), or an opaque JSON-encodable object
(`runtime_env`). -/
inductive OptVal where
  | qty (q : ℚ)
  | res (entries : List (String × ℚ))
  | sval (s : String)
  | objval
deriving DecidableEq, Repr

/-- `ray_actor_options`: a Python dict, modelled as an insertion-ordered
association list with unique keys. -/
abbrev RayActorOptions := List (String × OptVal)

/-- A key of a placement-group bundle dict; Python allows non-string keys,
which the bundle shape check rejects. -/
inductive BKey where
  | kstr (s : String)
  | kother
deriving DecidableEq, Repr

/-- A value of a placement-group bundle dict; non-numeric values are
rejected by the bundle shape check. -/
inductive BQty where
  | num (q : ℚ)
  | other
deriving DecidableEq, Repr

/-- One placement-group bundle: a resource dict. -/
abbrev ResourceBundle := List (BKey × BQty)

/-- `dict.get(key)` on `ray_actor_options`. -/
def optLookup (opts : RayActorOptions) (key : String) : Option OptVal :=
  (opts.find? (fun kv => kv.1 == key)).map (·.2)

/-- `self.ray_actor_options.get(key, 0)` for a numeric option. -/
def optQty (opts : RayActorOptions) (key : String) : ℚ :=
  match optLookup opts key with
  | some (.qty q) => q
  | _ => 0

/-- `self.ray_actor_options.get("resources", {})`. -/
def optResources (opts : RayActorOptions) : List (String × ℚ) :=
  match optLookup opts "resources" with
  | some (.res l) => l
  | _ => []

/-- The allow-list of `ray_actor_options` keys from
`_validate_ray_actor_options`. -/
def allowed_ray_actor_options : List String :=
  ["accelerator_type", "memory", "num_cpus", "num_gpus",
   "object_store_memory", "resources", "runtime_env"]

/-- `ReplicaConfig._validate_ray_actor_options`: the value must be a dict
(enforced here by the `RayActorOptions` type), every key must be in the
allow-list, and `num_cpus` is defaulted to 1 when absent.  The call to the
external `ray_option_utils.validate_actor_options` is modelled from the
spec as always succeeding (the spec specifies no constraint beyond the
allow-list for the option values handled here). -/
def validateRayActorOptions (opts : RayActorOptions) :
    Except ConfigError RayActorOptions :=
  match opts.find? (fun kv => !(allowed_ray_actor_options.contains kv.1)) with
  | some kv => .error (.invalidOption kv.1 allowed_ray_actor_options)
  | none =>
    if (optLookup opts "num_cpus").isNone then
      .ok (opts ++ [("num_cpus", .qty 1)])
    else .ok opts

/-- `VALID_PLACEMENT_GROUP_STRATEGIES` from `ray.util.placement_group`.
Modelled from the spec: the module is not among the shown sources; the
spec describes a fixed enumerated set of valid strategies, of which it
names `PACK`; the members are Ray's placement strategies. -/
def VALID_PLACEMENT_GROUP_STRATEGIES : List String :=
  ["PACK", "SPREAD", "STRICT_PACK", "STRICT_SPREAD"]

/-- The per-bundle shape check of `_validate_placement_group_options`:
`isinstance(bundle, dict)` (by typing) with all keys strings and all
values `int`/`float`.  An empty dict passes (`all` of nothing is true). -/
def bundleShapeOk (b : ResourceBundle) : Bool :=
  b.all (fun kv =>
    (match kv.1 with | .kstr _ => true | .kother => false)
      && (match kv.2 with | .num _ => true | .other => false))

/-- `bundle.get(key, 0)` on a resource bundle (quantity of a resource,
defaulting to 0; only reached on shape-checked, hence numeric, bundles). -/
def bundleGet (b : ResourceBundle) (key : String) : ℚ :=
  match (b.find? (fun kv => kv.1 == BKey.kstr key)).map Prod.snd with
  | some (BQty.num q) => q
  | _ => 0

/-- The loop over the replica actor's custom `resources` requirements
against bundle 0. -/
def checkResourcesCovered (reqs : List (String × ℚ)) (b : ResourceBundle) :
    Except ConfigError Unit :=
  match reqs with
  | [] => .ok ()
  | (rname, aval) :: rest =>
    if bundleGet b rname < aval then
      .error (.insufficientBundleResource rname aval (bundleGet b rname))
    else checkResourcesCovered rest b

/-- The bundle-0 resource checks of `_validate_placement_group_options`:
the replica actor is placed in the first bundle, so its `num_cpus`,
`num_gpus` and custom resource requirements must each be covered by the
bundle's quantities (absent quantities default to 0). -/
def firstBundleChecks (b : ResourceBundle) (opts : RayActorOptions) :
    Except ConfigError Unit :=
  if bundleGet b "CPU" < optQty opts "num_cpus" then
    .error (.insufficientBundleResource "CPU" (optQty opts "num_cpus")
      (bundleGet b "CPU"))
  else if bundleGet b "GPU" < optQty opts "num_gpus" then
    .error (.insufficientBundleResource "GPU" (optQty opts "num_gpus")
      (bundleGet b "GPU"))
  else checkResourcesCovered (optResources opts) b

/-- The `for i, bundle in enumerate(...)` loop: each bundle is
shape-checked; bundle index 0 additionally gets the actor-resource
coverage checks. -/
def checkBundles (opts : RayActorOptions) : Nat → List ResourceBundle →
    Except ConfigError Unit
  | _, [] => .ok ()
  | i, b :: rest =>
    if !bundleShapeOk b then .error .invalidBundles
    else if i = 0 then
      match firstBundleChecks b opts with
      | .error e => .error e
      | .ok () => checkBundles opts (i + 1) rest
    else checkBundles opts (i + 1) rest

/-- `ReplicaConfig._validate_placement_group_options`: a set strategy must
be in the valid-strategy set; a set strategy requires bundles; set bundles
must be a non-empty list whose members pass the shape check, with bundle 0
covering the actor's resource requirements. -/
def validatePlacementGroupOptions (placement_group_strategy : Option String)
    (placement_group_bundles : Option (List ResourceBundle))
    (ray_actor_options : RayActorOptions) : Except ConfigError Unit :=
  match placement_group_strategy with
  | some s =>
    if !(VALID_PLACEMENT_GROUP_STRATEGIES.contains s) then
      .error (.invalidStrategy s VALID_PLACEMENT_GROUP_STRATEGIES)
    else
      match placement_group_bundles with
      | none => .error .strategyWithoutBundles
      | some bs =>
        if bs.isEmpty then .error .invalidBundles
        else checkBundles ray_actor_options 0 bs
  | none =>
    match placement_group_bundles with
    | none => .ok ()
    | some bs =>
      if bs.isEmpty then .error .invalidBundles
      else checkBundles ray_actor_options 0 bs

/-- `resources_from_ray_options` from `ray._private.utils`.  Modelled from
the spec: a resource dict derived from the actor options (`num_cpus` →
`CPU`, `num_gpus` → `GPU`, plus the custom resources); no claim depends on
its exact contents. -/
def resourcesFromRayOptions (opts : RayActorOptions) : List (String × ℚ) :=
  [("CPU", optQty opts "num_cpus"), ("GPU", optQty opts "num_gpus")]
    ++ optResources opts

/-- `ReplicaConfig` state.  The three `serialized_*` payloads are byte
strings (or Python `None`, as passed by `from_proto` for an empty
`init_args`/`init_kwargs` field); the three `_`-prefixed cache slots are
initialised to Python `None` and filled by the lazy accessors. -/
structure ReplicaConfig where
  deployment_def_name : String
  serialized_deployment_def : PyVal
  serialized_init_args : PyVal
  serialized_init_kwargs : PyVal
  _deployment_def : PyVal
  _init_args : PyVal
  _init_kwargs : PyVal
  ray_actor_options : RayActorOptions
  placement_group_bundles : Option (List ResourceBundle)
  placement_group_strategy : Option String
  resource_dict : List (String × ℚ)
  needs_pickle : Bool
deriving Repr

/-- `ReplicaConfig.__init__`: stores the serialized payloads, clears the
caches, validates (and defaults) the actor options, validates the
placement-group options against them, and derives `resource_dict`. -/
def ReplicaConfig.init (deployment_def_name : String)
    (serialized_deployment_def serialized_init_args serialized_init_kwargs : PyVal)
    (ray_actor_options : RayActorOptions)
    (placement_group_bundles : Option (List ResourceBundle))
    (placement_group_strategy : Option String)
    (needs_pickle : Bool) : Except ConfigError ReplicaConfig :=
  match validateRayActorOptions ray_actor_options with
  | .error e => .error e
  | .ok opts =>
    match validatePlacementGroupOptions placement_group_strategy
        placement_group_bundles opts with
    | .error e => .error e
    | .ok () =>
      .ok { deployment_def_name := deployment_def_name
            serialized_deployment_def := serialized_deployment_def
            serialized_init_args := serialized_init_args
            serialized_init_kwargs := serialized_init_kwargs
            _deployment_def := .vnone
            _init_args := .vnone
            _init_kwargs := .vnone
            ray_actor_options := opts
            placement_group_bundles := placement_group_bundles
            placement_group_strategy := placement_group_strategy
            resource_dict := resourcesFromRayOptions opts
            needs_pickle := needs_pickle }

/-- `ReplicaConfig.update_ray_actor_options`: replaces the actor options,
re-runs only `_validate_ray_actor_options`, and recomputes
`resource_dict`.  It does not re-run the placement-group validator. -/
def ReplicaConfig.update_ray_actor_options (c : ReplicaConfig)
    (ray_actor_options : RayActorOptions) : Except ConfigError ReplicaConfig :=
  match validateRayActorOptions ray_actor_options with
  | .error e => .error e
  | .ok opts =>
    .ok { c with
          ray_actor_options := opts
          resource_dict := resourcesFromRayOptions opts }

/-- `ReplicaConfig.update_placement_group_options`: replaces the
placement-group fields and re-runs `_validate_placement_group_options`
(which reads the current actor options for the bundle-0 cross-check). -/
def ReplicaConfig.update_placement_group_options (c : ReplicaConfig)
    (placement_group_bundles : Option (List ResourceBundle))
    (placement_group_strategy : Option String) :
    Except ConfigError ReplicaConfig :=
  match validatePlacementGroupOptions placement_group_strategy
      placement_group_bundles c.ray_actor_options with
  | .error e => .error e
  | .ok () =>
    .ok { c with
          placement_group_bundles := placement_group_bundles
          placement_group_strategy := placement_group_strategy }

/-- `ReplicaConfig.create`: rejects `init_args`/`init_kwargs` for plain
function deployments, rejects a `deployment_def` that is neither callable
nor a string, fills defaults, derives the name, pickles the code and
arguments, constructs through `__init__` (with the default
`needs_pickle=True`), and pre-caches the original unserialized values. -/
def ReplicaConfig.create (deployment_def : PyVal)
    (init_args : PyVal) (init_kwargs : PyVal)
    (ray_actor_options : Option RayActorOptions)
    (placement_group_bundles : Option (List ResourceBundle))
    (placement_group_strategy : Option String)
    (deployment_def_name : Option String) : Except ConfigError ReplicaConfig :=
  if deployment_def.isFunction && init_args.truthy then
    .error .invalidConfig
  else if deployment_def.isFunction && init_kwargs.truthy then
    .error .invalidConfig
  else if !(deployment_def.isCallable || deployment_def.isString) then
    .error .typeMismatch
  else
    match ReplicaConfig.init
        (match deployment_def_name with
         | some n => n
         | none =>
           match deployment_def with
           | .vstr s => s
           | .vfunc n => n
           | .vclass n => n
           | _ => "")
        (pickleDumps deployment_def)
        (pickleDumps (if init_args.isNone then .vtuple [] else init_args))
        (pickleDumps (if init_kwargs.isNone then .vdict [] else init_kwargs))
        (ray_actor_options.getD []) placement_group_bundles
        placement_group_strategy true with
    | .error e => .error e
    | .ok config =>
      .ok { config with
            _deployment_def := deployment_def
            _init_args := if init_args.isNone then .vtuple [] else init_args
            _init_kwargs :=
              if init_kwargs.isNone then .vdict [] else init_kwargs }

/-- The `deployment_def` lazy property.  The returned triple is the
property value, the (possibly cache-updated) object, and the number of
times the decode path ran during this access.  The cache check is Python's
`if self._deployment_def is None`. -/
def ReplicaConfig.deployment_def_access (c : ReplicaConfig) :
    Except ConfigError (PyVal × ReplicaConfig × Nat) :=
  if c._deployment_def.isNone then
    if c.needs_pickle then
      match cloudpickleLoads c.serialized_deployment_def with
      | .error e => .error e
      | .ok v => .ok (v, { c with _deployment_def := v }, 1)
    else
      match utf8Decode c.serialized_deployment_def with
      | .error e => .error e
      | .ok s => .ok (.vstr s, { c with _deployment_def := .vstr s }, 1)
  else .ok (c._deployment_def, c, 0)

/-- The `init_args` lazy property: cloudpickle decode when `needs_pickle`,
otherwise the raw serialized bytes are stored and returned as-is. -/
def ReplicaConfig.init_args_access (c : ReplicaConfig) :
    Except ConfigError (PyVal × ReplicaConfig × Nat) :=
  if c._init_args.isNone then
    if c.needs_pickle then
      match cloudpickleLoads c.serialized_init_args with
      | .error e => .error e
      | .ok v => .ok (v, { c with _init_args := v }, 1)
    else
      .ok (c.serialized_init_args,
           { c with _init_args := c.serialized_init_args }, 1)
  else .ok (c._init_args, c, 0)

/-- The `init_kwargs` lazy property: always decodes with cloudpickle,
with no `needs_pickle` branch. -/
def ReplicaConfig.init_kwargs_access (c : ReplicaConfig) :
    Except ConfigError (PyVal × ReplicaConfig × Nat) :=
  if c._init_kwargs.isNone then
    match cloudpickleLoads c.serialized_init_kwargs with
    | .error e => .error e
    | .ok v => .ok (v, { c with _init_kwargs := v }, 1)
  else .ok (c._init_kwargs, c, 0)

/-- The wire message for `ReplicaConfig` (`serve.proto`).  Modelled from
the spec: byte fields for the name and the three serialized payloads;
`ray_actor_options` and `placement_group_bundles` are embedded JSON-string
fields (since `json.dumps`/`json.loads` are mutually inverse on the values
stored here, the embedded string is identified with the value, with the
empty string — `none` — as the bundles sentinel); `placement_group_strategy`
is a string field with `""` as the unset sentinel. -/
structure ReplicaConfigProto where
  deployment_def_name : String
  deployment_def : PyVal
  init_args : PyVal
  init_kwargs : PyVal
  ray_actor_options : RayActorOptions
  placement_group_bundles : Option (List ResourceBundle)
  placement_group_strategy : String
deriving Repr

/-- A Python `None` passed for a proto `bytes` field leaves the field at
its empty default. -/
def pyBytesField (v : PyVal) : PyVal :=
  match v with
  | .vnone => .vbytesRaw ""
  | w => w

/-- `ReplicaConfig.to_proto`: a straight field mapping; bundles `None`
encodes as the empty-string sentinel, strategy `None` as `""`. -/
def ReplicaConfig.to_proto (c : ReplicaConfig) : ReplicaConfigProto :=
  { deployment_def_name := c.deployment_def_name
    deployment_def := pyBytesField c.serialized_deployment_def
    init_args := pyBytesField c.serialized_init_args
    init_kwargs := pyBytesField c.serialized_init_kwargs
    ray_actor_options := c.ray_actor_options
    placement_group_bundles := c.placement_group_bundles
    placement_group_strategy := c.placement_group_strategy.getD "" }

/-- `ReplicaConfig.from_proto`: reconstructs through `__init__`; empty
`init_args`/`init_kwargs` byte fields are passed as Python `None`,
an empty strategy string as `None`. -/
def ReplicaConfig.from_proto (p : ReplicaConfigProto) (needs_pickle : Bool) :
    Except ConfigError ReplicaConfig :=
  ReplicaConfig.init p.deployment_def_name p.deployment_def
    (if isEmptyBytes p.init_args then .vnone else p.init_args)
    (if isEmptyBytes p.init_kwargs then .vnone else p.init_kwargs)
    p.ray_actor_options p.placement_group_bundles
    (if p.placement_group_strategy = "" then none
     else some p.placement_group_strategy)
    needs_pickle

/-- `to_proto_bytes`: `SerializeToString` of `to_proto` (wire bytes
identified with the message). -/
def ReplicaConfig.to_proto_bytes (c : ReplicaConfig) : ReplicaConfigProto :=
  c.to_proto

/-- `from_proto_bytes`: `FromString` composed with `from_proto`. -/
def ReplicaConfig.from_proto_bytes (p : ReplicaConfigProto)
    (needs_pickle : Bool) : Except ConfigError ReplicaConfig :=
  ReplicaConfig.from_proto p needs_pickle

/-- `DEFAULT_MAX_CONCURRENT_QUERIES` (the `DeploymentConfig` docstring
documents the default as 100). -/
def DEFAULT_MAX_CONCURRENT_QUERIES : Int := 100

/-- Modelled from the spec: `DEFAULT_GRACEFUL_SHUTDOWN_TIMEOUT_S` from
`ray.serve._private.constants` (not among the shown sources; no claim
depends on the exact value). -/
def DEFAULT_GRACEFUL_SHUTDOWN_TIMEOUT_S : ℚ := 20

/-- Modelled from the spec: `DEFAULT_GRACEFUL_SHUTDOWN_WAIT_LOOP_S`. -/
def DEFAULT_GRACEFUL_SHUTDOWN_WAIT_LOOP_S : ℚ := 2

/-- Modelled from the spec: `DEFAULT_HEALTH_CHECK_PERIOD_S`. -/
def DEFAULT_HEALTH_CHECK_PERIOD_S : ℚ := 10

/-- Modelled from the spec: `DEFAULT_HEALTH_CHECK_TIMEOUT_S`. -/
def DEFAULT_HEALTH_CHECK_TIMEOUT_S : ℚ := 30

/-- `cls()`: the all-defaults `DeploymentConfig` (with
`max_concurrent_queries` default-filled by its validator). -/
def DeploymentConfig.defaultConfig : DeploymentConfig :=
  { num_replicas := 1
    max_concurrent_queries := DEFAULT_MAX_CONCURRENT_QUERIES
    user_config := .vnone
    graceful_shutdown_timeout_s := DEFAULT_GRACEFUL_SHUTDOWN_TIMEOUT_S
    graceful_shutdown_wait_loop_s := DEFAULT_GRACEFUL_SHUTDOWN_WAIT_LOOP_S
    health_check_period_s := DEFAULT_HEALTH_CHECK_PERIOD_S
    health_check_timeout_s := DEFAULT_HEALTH_CHECK_TIMEOUT_S
    autoscaling_config := none
    is_cross_language := false
    deployment_language := .PYTHON
    version := none
    user_configured_option_names := [] }

/-- The names of the `DeploymentConfig` fields
(`config.dict().keys()` in `from_default`). -/
def DeploymentConfig.fieldNames : List String :=
  ["num_replicas", "max_concurrent_queries", "user_config",
   "graceful_shutdown_timeout_s", "graceful_shutdown_wait_loop_s",
   "health_check_period_s", "health_check_timeout_s",
   "autoscaling_config", "is_cross_language", "deployment_language",
   "version", "user_configured_option_names"]

/-- A keyword-argument value for `from_default`: `kdefault` is the
`DEFAULT.VALUE` sentinel; the others carry a value of the shape the
corresponding field expects. -/
inductive KwVal where
  | kdefault
  | kint (n : Int)
  | krat (q : ℚ)
  | kpy (v : PyVal)
  | kstr (s : String)
  | kbool (b : Bool)
  | klang (l : DeploymentLanguage)
  | kauto (a : Option AutoscalingConfig)
  | knames (l : List String)
deriving Repr

/-- `val != DEFAULT.VALUE`. -/
def KwVal.isDefaultSentinel : KwVal → Bool
  | .kdefault => true
  | _ => false

/-- `config.__setattr__(key, val)` under `validate_assignment = True`:
the assigned field's own validators run (pydantic also rejects a value of
the wrong shape for the field's type).  Exactly the per-field checks of
`DeploymentConfig.validB` run for the assigned field. -/
def DeploymentConfig.setField (c : DeploymentConfig) (key : String)
    (v : KwVal) : Except ConfigError DeploymentConfig :=
  if key = "num_replicas" then
    match v with
    | .kint n => if 0 ≤ n then .ok { c with num_replicas := n.toNat }
                 else .error .invalidConfig
    | _ => .error .invalidConfig
  else if key = "max_concurrent_queries" then
    match v with
    | .kint n => if n ≤ 0 then .error .invalidConfig
                 else .ok { c with max_concurrent_queries := n }
    | _ => .error .invalidConfig
  else if key = "user_config" then
    match v with
    | .kpy w => if DeploymentConfig.userConfigOk w then
                  .ok { c with user_config := w }
                else .error .invalidConfig
    | _ => .error .invalidConfig
  else if key = "graceful_shutdown_timeout_s" then
    match v with
    | .krat q => if 0 ≤ q then .ok { c with graceful_shutdown_timeout_s := q }
                 else .error .invalidConfig
    | _ => .error .invalidConfig
  else if key = "graceful_shutdown_wait_loop_s" then
    match v with
    | .krat q => if 0 ≤ q then .ok { c with graceful_shutdown_wait_loop_s := q }
                 else .error .invalidConfig
    | _ => .error .invalidConfig
  else if key = "health_check_period_s" then
    match v with
    | .krat q => if 0 < q then .ok { c with health_check_period_s := q }
                 else .error .invalidConfig
    | _ => .error .invalidConfig
  else if key = "health_check_timeout_s" then
    match v with
    | .krat q => if 0 < q then .ok { c with health_check_timeout_s := q }
                 else .error .invalidConfig
    | _ => .error .invalidConfig
  else if key = "autoscaling_config" then
    match v with
    | .kauto a => .ok { c with autoscaling_config := a }
    | _ => .error .invalidConfig
  else if key = "is_cross_language" then
    match v with
    | .kbool b => .ok { c with is_cross_language := b }
    | _ => .error .invalidConfig
  else if key = "deployment_language" then
    match v with
    | .klang l => .ok { c with deployment_language := l }
    | _ => .error .invalidConfig
  else if key = "version" then
    match v with
    | .kstr s => .ok { c with version := some s }
    | _ => .error .invalidConfig
  else if key = "user_configured_option_names" then
    match v with
    | .knames l => .ok { c with user_configured_option_names := l }
    | _ => .error .invalidConfig
  else .error (.invalidOption key DeploymentConfig.fieldNames)

/-- The override-application loop of `from_default`. -/
def DeploymentConfig.applyOverrides (c : DeploymentConfig) :
    List (String × KwVal) → Except ConfigError DeploymentConfig
  | [] => .ok c
  | (key, v) :: rest =>
    match DeploymentConfig.setField c key v with
    | .error e => .error e
    | .ok c' => DeploymentConfig.applyOverrides c' rest

/-- `DeploymentConfig.from_default(**kwargs)`: builds the default config;
raises a `TypeError` listing the valid option names on the first kwarg
whose key is not a known field; drops kwargs equal to `DEFAULT.VALUE`;
applies the remaining overrides one `__setattr__` at a time, each with its
own field-local validation. -/
def DeploymentConfig.from_default (kwargs : List (String × KwVal)) :
    Except ConfigError DeploymentConfig :=
  match kwargs.find?
      (fun kv => !(DeploymentConfig.fieldNames.contains kv.1)) with
  | some kv => .error (.invalidOption kv.1 DeploymentConfig.fieldNames)
  | none =>
    DeploymentConfig.applyOverrides DeploymentConfig.defaultConfig
      (kwargs.filter (fun kv => !kv.2.isDefaultSentinel))


/-- A concrete `ReplicaConfig` with pickled payloads and empty caches
(as produced by `from_proto` with `needs_pickle=True`). -/
def sampleReplicaPickle : ReplicaConfig :=
  ⟨"d", .vbytesPickled (.vclass "D"), .vbytesPickled (.vtuple [.vint 1]),
   .vbytesPickled (.vdict [("x", .vint 2)]), .vnone, .vnone, .vnone,
   [("num_cpus", .qty 1)], none, none, [("CPU", 1), ("GPU", 0)], true⟩

/-- A concrete `ReplicaConfig` with raw-text payloads and
`needs_pickle = False` (a cross-language replica). -/
def sampleReplicaRaw : ReplicaConfig :=
  ⟨"d", .vbytesRaw "mod.Cls", .vbytesRaw "", .vbytesPickled (.vdict []),
   .vnone, .vnone, .vnone, [("num_cpus", .qty 1)], none, none,
   [("CPU", 1), ("GPU", 0)], false⟩

/-- A concrete `ReplicaConfig` whose `serialized_init_args` payload
unpickles to Python `None`. -/
def sampleReplicaNonePayload : ReplicaConfig :=
  ⟨"d", .vbytesPickled (.vclass "D"), .vbytesPickled .vnone,
   .vbytesPickled (.vdict []), .vnone, .vnone, .vnone,
   [("num_cpus", .qty 1)], none, none, [("CPU", 1), ("GPU", 0)], true⟩

/-- The `ReplicaConfig` produced by
`create(class A, (1,), {"x": 2})` (defaults elsewhere). -/
def sampleCreated : ReplicaConfig :=
  ⟨"A", .vbytesPickled (.vclass "A"), .vbytesPickled (.vtuple [.vint 1]),
   .vbytesPickled (.vdict [("x", .vint 2)]), .vclass "A",
   .vtuple [.vint 1], .vdict [("x", .vint 2)], [("num_cpus", .qty 1)],
   none, none, [("CPU", 1), ("GPU", 0)], true⟩

/-- A concrete valid `DeploymentConfig` on the pickled `user_config` path
with a nested autoscaling config and a set version. -/
def sampleDeployment : DeploymentConfig :=
  { num_replicas := 2
    max_concurrent_queries := 5
    user_config := .vdict [("a", .vint 1)]
    graceful_shutdown_timeout_s := 20
    graceful_shutdown_wait_loop_s := 2
    health_check_period_s := 10
    health_check_timeout_s := 30
    autoscaling_config := some ⟨0, some 1, 3, 1, 10, 30, 1, 600, 30⟩
    is_cross_language := false
    deployment_language := .PYTHON
    version := some "v1"
    user_configured_option_names := ["num_replicas"] }

/-- A concrete valid `DeploymentConfig` on the pass-through path
(`needs_pickle()` false: Java, not cross-language) whose `user_config` is
the *empty* byte string. -/
def sampleDeploymentEmptyBytes : DeploymentConfig :=
  { num_replicas := 1
    max_concurrent_queries := 100
    user_config := .vbytesRaw ""
    graceful_shutdown_timeout_s := 20
    graceful_shutdown_wait_loop_s := 2
    health_check_period_s := 10
    health_check_timeout_s := 30
    autoscaling_config := none
    is_cross_language := false
    deployment_language := .JAVA
    version := none
    user_configured_option_names := [] }

/-! ## Helper lemmas -/

/-- The cache-slot check `is None` detects exactly the `None` value. -/
theorem PyVal.isNone_iff (v : PyVal) : v.isNone = true ↔ v = .vnone := by
  cases v <;> simp [PyVal.isNone]

/-- A callable-or-string value is not `None`. -/
theorem PyVal.isNone_eq_false_of_callable_or_string (v : PyVal)
    (h : (v.isCallable || v.isString) = true) : v.isNone = false := by
  cases v <;> simp_all [PyVal.isCallable, PyVal.isString, PyVal.isNone]

/-! ## C3: the `_needs_pickle` truth table -/

/-- C3: `_needs_pickle(deployment_language, is_cross_language)` returns
true exactly for (PYTHON, not cross-language) and (JAVA, cross-language),
and false for every other language/flag combination. -/
theorem needs_pickle_truth_table :
    ∀ (l : DeploymentLanguage) (f : Bool),
      _needs_pickle l f = true ↔
        ((l = .PYTHON ∧ f = false) ∨ (l = .JAVA ∧ f = true)) := by
  intro l f
  cases l <;> cases f <;> simp [_needs_pickle]

/-! ## C4: `AutoscalingConfig` construction -/

/-- Unfolded characterisation of the `AutoscalingConfig` checks. -/
theorem AutoscalingConfig.validB_iff (c : AutoscalingConfig) :
    c.validB = true ↔
      (0 ≤ c.min_replicas ∧ 1 ≤ c.max_replicas ∧
        c.min_replicas ≤ c.max_replicas ∧
        (∀ i ∈ c.initial_replicas,
          0 ≤ i ∧ c.min_replicas ≤ i ∧ i ≤ c.max_replicas) ∧
        0 < c.target_num_ongoing_requests_per_replica ∧
        0 < c.metrics_interval_s ∧ 0 < c.look_back_period_s ∧
        0 < c.smoothing_factor ∧ 0 ≤ c.downscale_delay_s ∧
        0 ≤ c.upscale_delay_s) := by
  obtain ⟨mn, ini, mx, t, m, lb, s, d, u⟩ := c
  cases ini <;> simp [AutoscalingConfig.validB] <;> tauto

/-- C4: with the tuning fields at their declared defaults, constructing an
`AutoscalingConfig` succeeds exactly when `min_replicas ≥ 0`,
`max_replicas ≥ 1`, `min_replicas ≤ max_replicas`, and any provided
`initial_replicas` satisfies `min_replicas ≤ initial_replicas ≤
max_replicas`; otherwise construction fails (`InvalidConfig`). -/
theorem autoscaling_construct_iff :
    ∀ (mn mx : Int) (ini : Option Int),
      (AutoscalingConfig.construct mn ini mx 1 10 30 1 600 30).isOk = true ↔
        (0 ≤ mn ∧ 1 ≤ mx ∧ mn ≤ mx ∧ ∀ i ∈ ini, 0 ≤ i ∧ mn ≤ i ∧ i ≤ mx) := by
  intro mn mx ini
  have hval := AutoscalingConfig.validB_iff ⟨mn, ini, mx, 1, 10, 30, 1, 600, 30⟩
  simp only [show ((0:ℚ) < 1) = True by norm_num,
    show ((0:ℚ) < 10) = True by norm_num, show ((0:ℚ) < 30) = True by norm_num,
    show ((0:ℚ) ≤ 600) = True by norm_num,
    show ((0:ℚ) ≤ 30) = True by norm_num, and_true] at hval
  by_cases hb : AutoscalingConfig.validB ⟨mn, ini, mx, 1, 10, 30, 1, 600, 30⟩ = true
  · simp [AutoscalingConfig.construct, hb, Except.isOk, Except.toBool]
    exact hval.1 hb
  · rw [Bool.not_eq_true] at hb
    have herr : (AutoscalingConfig.construct mn ini mx 1 10 30 1 600 30)
        = .error .invalidConfig := by
      simp [AutoscalingConfig.construct, hb]
    rw [herr]
    have hok : (Except.error (α := AutoscalingConfig)
        ConfigError.invalidConfig).isOk = false := rfl
    rw [hok]
    simp only [Bool.false_eq_true, false_iff]
    intro hr
    exact absurd (hval.2 hr) (by simp [hb])

/-! ## C7: `AutoscalingConfig` assignment does not re-validate -/

/-- C7 counterexample: on the valid config (min 1, max 2, defaults),
assigning `max_replicas := 0` succeeds unconditionally (there is no
`validate_assignment` in `AutoscalingConfig`) and leaves the object
holding a value violating both `PositiveInt` and
`min_replicas ≤ max_replicas`, instead of failing with `InvalidConfig`. -/
theorem autoscaling_assignment_counterexample :
    (AutoscalingConfig.validB
        ⟨1, none, 2, 1, 10, 30, 1, 600, 30⟩ = true) ∧
    ((AutoscalingConfig.set_max_replicas
        ⟨1, none, 2, 1, 10, 30, 1, 600, 30⟩ 0).max_replicas = 0) ∧
    (AutoscalingConfig.validB (AutoscalingConfig.set_max_replicas
        ⟨1, none, 2, 1, 10, 30, 1, 600, 30⟩ 0) = false) := by
  refine ⟨by decide, rfl, by decide⟩

/-- C7 (amended): reassigning a field of an `AutoscalingConfig` never
re-validates — the assignment always succeeds and stores the new value,
even one violating the replica-bounds invariant (pydantic only re-validates
assignments for models whose `Config` sets `validate_assignment`, which
`AutoscalingConfig` does not). -/
theorem autoscaling_assignment_unvalidated :
    ∀ (c : AutoscalingConfig) (v : Int),
      (c.set_max_replicas v).max_replicas = v ∧
      (v < c.min_replicas → (c.set_max_replicas v).validB = false) := by
  intro c v
  refine ⟨rfl, fun h => ?_⟩
  simp only [AutoscalingConfig.validB, AutoscalingConfig.set_max_replicas]
  cases hi : c.initial_replicas <;> simp_all

/-- C7 witness: a concrete application of
`autoscaling_assignment_unvalidated` with its hypothesis discharged. -/
theorem autoscaling_assignment_unvalidated_witness :
    ((AutoscalingConfig.set_max_replicas
        ⟨1, none, 2, 1, 10, 30, 1, 600, 30⟩ 0).max_replicas = 0) ∧
    (AutoscalingConfig.validB (AutoscalingConfig.set_max_replicas
        ⟨1, none, 2, 1, 10, 30, 1, 600, 30⟩ 0) = false) :=
  ⟨(autoscaling_assignment_unvalidated ⟨1, none, 2, 1, 10, 30, 1, 600, 30⟩ 0).1,
   (autoscaling_assignment_unvalidated ⟨1, none, 2, 1, 10, 30, 1, 600, 30⟩ 0).2
     (by decide)⟩

/-! ## C5: placement-group validation -/

/-- The custom-resources loop succeeds exactly when bundle 0 covers every
requested custom resource. -/
theorem checkResourcesCovered_ok_iff (reqs : List (String × ℚ))
    (b : ResourceBundle) :
    checkResourcesCovered reqs b = .ok () ↔
      ∀ r ∈ reqs, r.2 ≤ bundleGet b r.1 := by
  induction reqs with
  | nil => simp [checkResourcesCovered]
  | cons hd tl ih =>
    obtain ⟨rname, aval⟩ := hd
    simp only [checkResourcesCovered]
    by_cases hlt : bundleGet b rname < aval
    · rw [if_pos hlt]
      constructor
      · intro h; exact Except.noConfusion h
      · intro h
        exact absurd (h (rname, aval) (List.mem_cons_self _ _)) (not_le.mpr hlt)
    · rw [if_neg hlt, ih]
      constructor
      · intro h r hr
        rcases List.mem_cons.mp hr with h1 | h2
        · subst h1; exact not_lt.mp hlt
        · exact h r h2
      · intro h r hr
        exact h r (List.mem_cons_of_mem _ hr)

/-- The bundle-0 checks succeed exactly when the bundle covers the actor's
CPU, GPU and custom resource requirements. -/
theorem firstBundleChecks_ok_iff (b : ResourceBundle)
    (opts : RayActorOptions) :
    firstBundleChecks b opts = .ok () ↔
      (optQty opts "num_cpus" ≤ bundleGet b "CPU" ∧
       optQty opts "num_gpus" ≤ bundleGet b "GPU" ∧
       ∀ r ∈ optResources opts, r.2 ≤ bundleGet b r.1) := by
  simp only [firstBundleChecks]
  by_cases hcpu : bundleGet b "CPU" < optQty opts "num_cpus"
  · rw [if_pos hcpu]
    constructor
    · intro h; exact Except.noConfusion h
    · rintro ⟨h1, -, -⟩; exact absurd h1 (not_le.mpr hcpu)
  · rw [if_neg hcpu]
    by_cases hgpu : bundleGet b "GPU" < optQty opts "num_gpus"
    · rw [if_pos hgpu]
      constructor
      · intro h; exact Except.noConfusion h
      · rintro ⟨-, h2, -⟩; exact absurd h2 (not_le.mpr hgpu)
    · rw [if_neg hgpu, checkResourcesCovered_ok_iff]
      constructor
      · intro h; exact ⟨not_lt.mp hcpu, not_lt.mp hgpu, h⟩
      · rintro ⟨-, -, h3⟩; exact h3

/-- At non-zero indices the bundle loop only shape-checks. -/
theorem checkBundles_pos_ok_iff (opts : RayActorOptions)
    (bs : List ResourceBundle) :
    ∀ i, i ≠ 0 → (checkBundles opts i bs = .ok () ↔
      ∀ b ∈ bs, bundleShapeOk b = true) := by
  induction bs with
  | nil => intro i _; simp [checkBundles]
  | cons hd tl ih =>
    intro i hi
    simp only [checkBundles]
    by_cases hshape : bundleShapeOk hd = true
    · rw [if_neg (by simp [hshape]), if_neg hi,
        ih (i + 1) (Nat.succ_ne_zero i)]
      constructor
      · intro h b hb
        rcases List.mem_cons.mp hb with h1 | h2
        · subst h1; exact hshape
        · exact h b h2
      · intro h b hb
        exact h b (List.mem_cons_of_mem _ hb)
    · rw [if_pos (by simp [Bool.not_eq_true] at hshape; simp [hshape])]
      constructor
      · intro h; exact Except.noConfusion h
      · intro h
        exact absurd (h hd (List.mem_cons_self _ _)) hshape

/-- Starting at index 0, the bundle loop succeeds exactly when every
bundle is well-shaped and the head bundle passes the actor-resource
coverage checks. -/
theorem checkBundles_zero_ok_iff (opts : RayActorOptions)
    (bs : List ResourceBundle) :
    checkBundles opts 0 bs = .ok () ↔
      ((∀ b ∈ bs, bundleShapeOk b = true) ∧
       ∀ b0 ∈ bs.head?, firstBundleChecks b0 opts = .ok ()) := by
  cases bs with
  | nil => simp [checkBundles]
  | cons hd tl =>
    simp only [checkBundles]
    by_cases hshape : bundleShapeOk hd = true
    · rw [if_neg (by simp [hshape]), if_pos trivial]
      cases hfst : firstBundleChecks hd opts with
      | ok u =>
        cases u
        rw [checkBundles_pos_ok_iff opts tl 1 Nat.one_ne_zero]
        constructor
        · intro h
          refine ⟨fun b hb => ?_, fun b0 hb0 => ?_⟩
          · rcases List.mem_cons.mp hb with h1 | h2
            · subst h1; exact hshape
            · exact h b h2
          · have hb0' : some hd = some b0 := Option.mem_def.mp hb0
            injection hb0' with he
            subst he
            exact hfst
        · rintro ⟨h1, -⟩ b hb
          exact h1 b (List.mem_cons_of_mem _ hb)
      | error e =>
        constructor
        · intro h; exact Except.noConfusion h
        · rintro ⟨-, h2⟩
          have := h2 hd rfl
          rw [hfst] at this
          exact Except.noConfusion this
    · rw [if_pos (by simp [Bool.not_eq_true] at hshape; simp [hshape])]
      constructor
      · intro h; exact Except.noConfusion h
      · rintro ⟨h1, -⟩
        exact absurd (h1 hd (List.mem_cons_self _ _)) hshape

/-- `_validate_placement_group_options` succeeds exactly when: any set
strategy is valid; a set strategy implies bundles; set bundles are a
non-empty list of shape-correct dicts whose head covers the actor's
resource requirements. -/
theorem validatePGO_ok_iff (strategy : Option String)
    (bundles : Option (List ResourceBundle)) (opts : RayActorOptions) :
    validatePlacementGroupOptions strategy bundles opts = .ok () ↔
      ((∀ s ∈ strategy, s ∈ VALID_PLACEMENT_GROUP_STRATEGIES) ∧
       (strategy.isSome = true → bundles.isSome = true) ∧
       (∀ bs ∈ bundles, bs ≠ [] ∧ (∀ b ∈ bs, bundleShapeOk b = true) ∧
         ∀ b0 ∈ bs.head?,
           optQty opts "num_cpus" ≤ bundleGet b0 "CPU" ∧
           optQty opts "num_gpus" ≤ bundleGet b0 "GPU" ∧
           ∀ r ∈ optResources opts, r.2 ≤ bundleGet b0 r.1)) := by
  have hbody : ∀ bs : List ResourceBundle,
      ((if bs.isEmpty then (.error .invalidBundles : Except ConfigError Unit)
        else checkBundles opts 0 bs) = .ok () ↔
        (bs ≠ [] ∧ (∀ b ∈ bs, bundleShapeOk b = true) ∧
          ∀ b0 ∈ bs.head?,
            optQty opts "num_cpus" ≤ bundleGet b0 "CPU" ∧
            optQty opts "num_gpus" ≤ bundleGet b0 "GPU" ∧
            ∀ r ∈ optResources opts, r.2 ≤ bundleGet b0 r.1)) := by
    intro bs
    by_cases hemp : bs.isEmpty = true
    · rw [if_pos hemp, List.isEmpty_iff.mp hemp]
      constructor
      · intro h; exact Except.noConfusion h
      · rintro ⟨hne, -⟩; exact absurd rfl hne
    · have hne : bs ≠ [] := by
        intro h; subst h; simp at hemp
      rw [if_neg hemp, checkBundles_zero_ok_iff]
      constructor
      · rintro ⟨h1, h2⟩
        exact ⟨hne, h1, fun b0 hb0 =>
          (firstBundleChecks_ok_iff b0 opts).1 (h2 b0 hb0)⟩
      · rintro ⟨-, h1, h2⟩
        exact ⟨h1, fun b0 hb0 =>
          (firstBundleChecks_ok_iff b0 opts).2 (h2 b0 hb0)⟩
  cases strategy with
  | none =>
    simp only [validatePlacementGroupOptions]
    cases bundles with
    | none => simp
    | some bs =>
      rw [hbody bs]
      constructor
      · intro h
        refine ⟨by simp, by simp, fun bs' hbs' => ?_⟩
        have : some bs = some bs' := Option.mem_def.mp hbs'
        injection this with he
        subst he
        exact h
      · rintro ⟨-, -, h3⟩
        exact h3 bs rfl
  | some s =>
    simp only [validatePlacementGroupOptions]
    by_cases hvalid : VALID_PLACEMENT_GROUP_STRATEGIES.contains s = true
    · rw [if_neg (by simp; exact List.mem_of_elem_eq_true hvalid)]
      have hmem : s ∈ VALID_PLACEMENT_GROUP_STRATEGIES := List.mem_of_elem_eq_true hvalid
      cases bundles with
      | none =>
        constructor
        · intro h; exact Except.noConfusion h
        · rintro ⟨-, h2, -⟩
          exact Bool.noConfusion (h2 rfl)
      | some bs =>
        rw [hbody bs]
        constructor
        · intro h
          refine ⟨fun s' hs' => ?_, fun _ => rfl, fun bs' hbs' => ?_⟩
          · have : some s = some s' := Option.mem_def.mp hs'
            injection this with he
            subst he
            exact hmem
          · have : some bs = some bs' := Option.mem_def.mp hbs'
            injection this with he
            subst he
            exact h
        · rintro ⟨-, -, h3⟩
          exact h3 bs rfl
    · rw [if_pos (by simp [Bool.not_eq_true] at hvalid; simp [hvalid])]
      constructor
      · intro h; exact Except.noConfusion h
      · rintro ⟨h1, -, -⟩
        have := h1 s rfl
        exact absurd (List.elem_eq_true_of_mem this) hvalid

/-- C5 (amended): placement-group validation of a `ReplicaConfig` succeeds
if and only if: any set `placement_group_strategy` is in the fixed
valid-strategy set; a set strategy implies `placement_group_bundles` is
set; set bundles form a non-empty list of dicts with string keys and
numeric values (an *empty* dict is accepted — `all` over an empty dict is
vacuously true); and bundle 0's CPU/GPU/custom-resource quantities
(default 0 if absent) each cover the actor's requirements.  Additionally,
a bundle-0 CPU shortfall fails with an error naming the resource and both
quantities. -/
theorem placement_group_validation_characterisation :
    (∀ (strategy : Option String) (bundles : Option (List ResourceBundle))
        (opts : RayActorOptions),
      validatePlacementGroupOptions strategy bundles opts = .ok () ↔
        ((∀ s ∈ strategy, s ∈ VALID_PLACEMENT_GROUP_STRATEGIES) ∧
         (strategy.isSome = true → bundles.isSome = true) ∧
         (∀ bs ∈ bundles, bs ≠ [] ∧ (∀ b ∈ bs, bundleShapeOk b = true) ∧
           ∀ b0 ∈ bs.head?,
             optQty opts "num_cpus" ≤ bundleGet b0 "CPU" ∧
             optQty opts "num_gpus" ≤ bundleGet b0 "GPU" ∧
             ∀ r ∈ optResources opts, r.2 ≤ bundleGet b0 r.1))) ∧
    (∀ (opts : RayActorOptions) (b0 : ResourceBundle)
        (rest : List ResourceBundle),
      bundleShapeOk b0 = true →
      bundleGet b0 "CPU" < optQty opts "num_cpus" →
      validatePlacementGroupOptions none (some (b0 :: rest)) opts =
        .error (.insufficientBundleResource "CPU" (optQty opts "num_cpus")
          (bundleGet b0 "CPU"))) := by
  refine ⟨validatePGO_ok_iff, fun opts b0 rest hshape hcpu => ?_⟩
  simp only [validatePlacementGroupOptions, List.isEmpty_cons,
    Bool.false_eq_true, if_false, checkBundles]
  rw [if_neg (by simp [hshape]), if_pos trivial]
  simp only [firstBundleChecks]
  rw [if_pos hcpu]

/-- C5 counterexample to the claim as stated: the bundle list
`[{"CPU": 1}, {}]` contains an empty dict, which the claim requires to be
rejected, yet validation succeeds (the shape check is vacuous on an empty
dict and only bundle 0 is resource-checked). -/
theorem placement_group_empty_dict_counterexample :
    validatePlacementGroupOptions none
      (some [[(BKey.kstr "CPU", BQty.num 1)], []])
      [("num_cpus", OptVal.qty 1)] = .ok () := by
  rfl

/-- C5 witness: the spec's own failing example — bundle `[{"CPU": 0.5}]`
with actor `num_cpus = 1` — fails naming `CPU` and both quantities. -/
theorem placement_group_validation_characterisation_witness :
    validatePlacementGroupOptions none
      (some [[(BKey.kstr "CPU", BQty.num 0.5)]])
      [("num_cpus", OptVal.qty 1)] =
      .error (.insufficientBundleResource "CPU" 1 0.5) :=
  placement_group_validation_characterisation.2
    [("num_cpus", OptVal.qty 1)] [(BKey.kstr "CPU", BQty.num 0.5)] []
    (by rfl) (by norm_num [bundleGet, optQty, optLookup, List.find?])

/-! ## C6: what the update methods re-validate -/

/-- `_validate_ray_actor_options` is idempotent: its output (the options
with `num_cpus` defaulted) passes the validator again unchanged. -/
theorem validateRayActorOptions_idem (opts opts' : RayActorOptions)
    (h : validateRayActorOptions opts = .ok opts') :
    validateRayActorOptions opts' = .ok opts' := by
  unfold validateRayActorOptions at h ⊢
  cases hfind : opts.find?
      (fun kv => !(allowed_ray_actor_options.contains kv.1)) with
  | some kv => rw [hfind] at h; exact Except.noConfusion h
  | none =>
    rw [hfind] at h
    by_cases hcpu : (optLookup opts "num_cpus").isNone = true
    · rw [if_pos hcpu] at h
      injection h with h'
      subst h'
      have hfind2 : ((opts ++ [("num_cpus", OptVal.qty 1)]).find?
          (fun kv => !(allowed_ray_actor_options.contains kv.1))) = none := by
        rw [List.find?_append, hfind]
        simp [allowed_ray_actor_options]
      rw [hfind2]
      have hfcpu : opts.find? (fun kv => kv.1 == "num_cpus") = none := by
        cases hf : opts.find? (fun kv => kv.1 == "num_cpus") with
        | none => rfl
        | some kv =>
          unfold optLookup at hcpu
          rw [hf] at hcpu
          simp at hcpu
      have hlook : (optLookup (opts ++ [("num_cpus", OptVal.qty 1)])
          "num_cpus").isNone = false := by
        unfold optLookup
        rw [List.find?_append, hfcpu]
        simp
      rw [if_neg (by simp [hlook])]
    · rw [if_neg hcpu] at h
      injection h with h'
      subst h'
      rw [hfind, if_neg hcpu]

/-- C6 (amended): after `update_placement_group_options` returns
successfully, the placement-group validator (including the bundle-0
cross-check against the *current* actor options) has passed on the new
state; after `update_ray_actor_options` returns successfully, only the
actor-options validator has been re-run on the new state — the
placement-group cross-check is *not* re-run by that method. -/
theorem update_revalidation :
    (∀ (c : ReplicaConfig) (bundles : Option (List ResourceBundle))
        (strategy : Option String) (c' : ReplicaConfig),
      c.update_placement_group_options bundles strategy = .ok c' →
        validatePlacementGroupOptions c'.placement_group_strategy
          c'.placement_group_bundles c'.ray_actor_options = .ok ()) ∧
    (∀ (c : ReplicaConfig) (opts : RayActorOptions) (c' : ReplicaConfig),
      c.update_ray_actor_options opts = .ok c' →
        validateRayActorOptions c'.ray_actor_options =
          .ok c'.ray_actor_options) := by
  constructor
  · intro c bundles strategy c' h
    unfold ReplicaConfig.update_placement_group_options at h
    cases hv : validatePlacementGroupOptions strategy bundles
        c.ray_actor_options with
    | error e => rw [hv] at h; exact Except.noConfusion h
    | ok u =>
      cases u
      rw [hv] at h
      injection h with h'
      subst h'
      exact hv
  · intro c opts c' h
    unfold ReplicaConfig.update_ray_actor_options at h
    cases hv : validateRayActorOptions opts with
    | error e => rw [hv] at h; exact Except.noConfusion h
    | ok opts2 =>
      rw [hv] at h
      injection h with h'
      subst h'
      exact validateRayActorOptions_idem opts opts2 hv

/-- C6 counterexample to the claim as stated: on a config whose single
bundle is `{"CPU": 1}`, `update_ray_actor_options` with `num_cpus = 2`
returns successfully, yet the placement-group cross-check on the resulting
state is violated (bundle 0 no longer covers the actor's CPUs): the update
did not re-run the placement validator. -/
theorem update_actor_options_skips_cross_check :
    ((ReplicaConfig.init "d" (pickleDumps (.vclass "D"))
        (pickleDumps (.vtuple [])) (pickleDumps (.vdict [])) []
        (some [[(BKey.kstr "CPU", BQty.num 1)]]) none true).bind
      (fun c0 => (c0.update_ray_actor_options
          [("num_cpus", OptVal.qty 2)]).map
        (fun c1 => validatePlacementGroupOptions c1.placement_group_strategy
          c1.placement_group_bundles c1.ray_actor_options)))
      = .ok (.error (.insufficientBundleResource "CPU" 2 1)) := by
  rfl

/-- C6 witness: concrete applications of both halves of
`update_revalidation`, hypotheses discharged by computation. -/
theorem update_revalidation_witness :
    validatePlacementGroupOptions none
      (some [[(BKey.kstr "CPU", BQty.num 1)]])
      [("num_cpus", OptVal.qty 1)] = .ok () ∧
    validateRayActorOptions [("num_cpus", OptVal.qty 1)] =
      .ok [("num_cpus", OptVal.qty 1)] :=
  ⟨update_revalidation.1
      ⟨"d", .vnone, .vnone, .vnone, .vnone, .vnone, .vnone,
        [("num_cpus", OptVal.qty 1)], none, none, [], true⟩
      (some [[(BKey.kstr "CPU", BQty.num 1)]]) none
      ⟨"d", .vnone, .vnone, .vnone, .vnone, .vnone, .vnone,
        [("num_cpus", OptVal.qty 1)],
        some [[(BKey.kstr "CPU", BQty.num 1)]], none, [], true⟩
      (by rfl),
   update_revalidation.2
      ⟨"d", .vnone, .vnone, .vnone, .vnone, .vnone, .vnone,
        [("num_cpus", OptVal.qty 1)], none, none, [], true⟩
      [("num_cpus", OptVal.qty 1)]
      ⟨"d", .vnone, .vnone, .vnone, .vnone, .vnone, .vnone,
        [("num_cpus", OptVal.qty 1)], none, none,
        [("CPU", 1), ("GPU", 0)], true⟩
      (by rfl)⟩

/-! ## C8: `init_kwargs` bypasses the `needs_pickle` branch -/

/-- C8: on a cache-empty config, the `init_kwargs` accessor always decodes
with cloudpickle regardless of `needs_pickle`, whereas `init_args` and
`deployment_def` branch on the flag: cloudpickle when set, otherwise the
raw serialized bytes (`init_args`) or the UTF-8 decoded string
(`deployment_def`). -/
theorem init_kwargs_access_ignores_needs_pickle :
    ∀ (c : ReplicaConfig),
      (c._init_kwargs = .vnone →
        c.init_kwargs_access =
          (cloudpickleLoads c.serialized_init_kwargs).map
            (fun v => (v, { c with _init_kwargs := v }, 1))) ∧
      (c._init_args = .vnone → c.needs_pickle = true →
        c.init_args_access =
          (cloudpickleLoads c.serialized_init_args).map
            (fun v => (v, { c with _init_args := v }, 1))) ∧
      (c._init_args = .vnone → c.needs_pickle = false →
        c.init_args_access =
          .ok (c.serialized_init_args,
               { c with _init_args := c.serialized_init_args }, 1)) ∧
      (c._deployment_def = .vnone → c.needs_pickle = true →
        c.deployment_def_access =
          (cloudpickleLoads c.serialized_deployment_def).map
            (fun v => (v, { c with _deployment_def := v }, 1))) ∧
      (c._deployment_def = .vnone → c.needs_pickle = false →
        c.deployment_def_access =
          (utf8Decode c.serialized_deployment_def).map
            (fun s => (.vstr s, { c with _deployment_def := .vstr s }, 1))) := by
  intro c
  refine ⟨fun h => ?_, fun h hp => ?_, fun h hp => ?_, fun h hp => ?_,
    fun h hp => ?_⟩
  · cases hl : cloudpickleLoads c.serialized_init_kwargs <;>
      simp [ReplicaConfig.init_kwargs_access, h, hl, PyVal.isNone, Except.map]
  · cases hl : cloudpickleLoads c.serialized_init_args <;>
      simp [ReplicaConfig.init_args_access, h, hp, hl, PyVal.isNone,
        Except.map]
  · simp [ReplicaConfig.init_args_access, h, hp, PyVal.isNone]
  · cases hl : cloudpickleLoads c.serialized_deployment_def <;>
      simp [ReplicaConfig.deployment_def_access, h, hp, hl, PyVal.isNone,
        Except.map]
  · cases hl : utf8Decode c.serialized_deployment_def <;>
      simp [ReplicaConfig.deployment_def_access, h, hp, hl, PyVal.isNone,
        Except.map]

/-- C8 witness: the accessor equations instantiated on concrete configs —
the pickled-path config for `init_kwargs`/`init_args`/`deployment_def`
with `needs_pickle`, the raw-path config for the two branching accessors
without it. -/
theorem init_kwargs_access_ignores_needs_pickle_witness :
    (sampleReplicaPickle.init_kwargs_access =
      (cloudpickleLoads sampleReplicaPickle.serialized_init_kwargs).map
        (fun v => (v, { sampleReplicaPickle with _init_kwargs := v }, 1))) ∧
    (sampleReplicaPickle.init_args_access =
      (cloudpickleLoads sampleReplicaPickle.serialized_init_args).map
        (fun v => (v, { sampleReplicaPickle with _init_args := v }, 1))) ∧
    (sampleReplicaRaw.init_args_access =
      .ok (sampleReplicaRaw.serialized_init_args,
           { sampleReplicaRaw with
             _init_args := sampleReplicaRaw.serialized_init_args }, 1)) ∧
    (sampleReplicaPickle.deployment_def_access =
      (cloudpickleLoads sampleReplicaPickle.serialized_deployment_def).map
        (fun v => (v, { sampleReplicaPickle with _deployment_def := v }, 1))) ∧
    (sampleReplicaRaw.deployment_def_access =
      (utf8Decode sampleReplicaRaw.serialized_deployment_def).map
        (fun s =>
          (.vstr s, { sampleReplicaRaw with _deployment_def := .vstr s }, 1))) :=
  ⟨(init_kwargs_access_ignores_needs_pickle sampleReplicaPickle).1 rfl,
   (init_kwargs_access_ignores_needs_pickle sampleReplicaPickle).2.1 rfl rfl,
   (init_kwargs_access_ignores_needs_pickle sampleReplicaRaw).2.2.1 rfl rfl,
   (init_kwargs_access_ignores_needs_pickle sampleReplicaPickle).2.2.2.1
     rfl rfl,
   (init_kwargs_access_ignores_needs_pickle sampleReplicaRaw).2.2.2.2
     rfl rfl⟩

/-! ## C9: lazy accessors decode at most once -/

/-- Inversion of a successful `create`: the type check passed, both
validators passed on the defaulted actor options, the serialized payloads
are the pickled inputs, the caches are pre-filled with the (defaulted)
originals, and `needs_pickle` is the default `True`. -/
theorem create_ok_spec (d a k : PyVal) (o : Option RayActorOptions)
    (b : Option (List ResourceBundle)) (s : Option String)
    (n : Option String) (r : ReplicaConfig)
    (h : ReplicaConfig.create d a k o b s n = .ok r) :
    ((d.isCallable || d.isString) = true) ∧
    validateRayActorOptions (o.getD []) = .ok r.ray_actor_options ∧
    validatePlacementGroupOptions s b r.ray_actor_options = .ok () ∧
    r.serialized_deployment_def = pickleDumps d ∧
    r.serialized_init_args =
      pickleDumps (if a.isNone then .vtuple [] else a) ∧
    r.serialized_init_kwargs =
      pickleDumps (if k.isNone then .vdict [] else k) ∧
    r._deployment_def = d ∧
    r._init_args = (if a.isNone then .vtuple [] else a) ∧
    r._init_kwargs = (if k.isNone then .vdict [] else k) ∧
    r.placement_group_bundles = b ∧
    r.placement_group_strategy = s ∧
    r.needs_pickle = true := by
  unfold ReplicaConfig.create at h
  split at h
  · exact Except.noConfusion h
  · split at h
    · exact Except.noConfusion h
    · split at h
      · exact Except.noConfusion h
      · rename_i h1 h2 h3
        have hcs : (d.isCallable || d.isString) = true := by
          revert h3
          cases hcb : (d.isCallable || d.isString) <;> simp
        split at h
        · exact Except.noConfusion h
        · rename_i config hinit
          injection h with h'
          subst h'
          unfold ReplicaConfig.init at hinit
          split at hinit
          · exact Except.noConfusion hinit
          · rename_i opts hvo
            split at hinit
            · exact Except.noConfusion hinit
            · rename_i hvp
              injection hinit with h2'
              subst h2'
              exact ⟨hcs, hvo, hvp, rfl, rfl, rfl, rfl, rfl, rfl, rfl,
                rfl, rfl⟩

/-- C9 (amended): once an accessor has produced a non-`None` value, the
value is cached and a repeated access returns it with zero additional
decodes; configs built by `create` are pre-cached and never decode.
(The qualification "non-`None`" is forced by the `is None` cache test: a
payload that decodes to Python `None` is re-decoded on every access.) -/
theorem lazy_accessor_caching :
    (∀ (c c' : ReplicaConfig) (v : PyVal) (n : Nat),
      c.init_args_access = .ok (v, c', n) → v ≠ .vnone →
      c'.init_args_access = .ok (v, c', 0)) ∧
    (∀ (c c' : ReplicaConfig) (v : PyVal) (n : Nat),
      c.deployment_def_access = .ok (v, c', n) → v ≠ .vnone →
      c'.deployment_def_access = .ok (v, c', 0)) ∧
    (∀ (c c' : ReplicaConfig) (v : PyVal) (n : Nat),
      c.init_kwargs_access = .ok (v, c', n) → v ≠ .vnone →
      c'.init_kwargs_access = .ok (v, c', 0)) ∧
    (∀ (d a k : PyVal) (o : Option RayActorOptions)
        (b : Option (List ResourceBundle)) (s : Option String)
        (n : Option String) (r : ReplicaConfig),
      ReplicaConfig.create d a k o b s n = .ok r →
        r.deployment_def_access = .ok (d, r, 0) ∧
        r.init_args_access =
          .ok ((if a.isNone then .vtuple [] else a), r, 0) ∧
        r.init_kwargs_access =
          .ok ((if k.isNone then .vdict [] else k), r, 0)) := by
  have hnotnone : ∀ v : PyVal, v ≠ .vnone → v.isNone = false := by
    intro v hv
    cases hni : v.isNone
    · rfl
    · exact absurd ((PyVal.isNone_iff v).mp hni) hv
  refine ⟨?_, ?_, ?_, ?_⟩
  · intro c c' v n h hv
    unfold ReplicaConfig.init_args_access at h ⊢
    by_cases hc : c._init_args.isNone = true
    · rw [if_pos hc] at h
      split at h
      · split at h
        · exact Except.noConfusion h
        · rename_i v2 hl
          injection h with h'
          rw [Prod.mk.injEq, Prod.mk.injEq] at h'
          obtain ⟨he1, he2, -⟩ := h'
          subst he1
          subst he2
          rw [if_neg (by simp [hnotnone _ hv])]
      · injection h with h'
        rw [Prod.mk.injEq, Prod.mk.injEq] at h'
        obtain ⟨he1, he2, -⟩ := h'
        subst he1
        subst he2
        rw [if_neg (by simp [hnotnone _ hv])]
    · rw [if_neg hc] at h
      injection h with h'
      rw [Prod.mk.injEq, Prod.mk.injEq] at h'
      obtain ⟨he1, he2, -⟩ := h'
      subst he1
      subst he2
      rw [if_neg hc]
  · intro c c' v n h hv
    unfold ReplicaConfig.deployment_def_access at h ⊢
    by_cases hc : c._deployment_def.isNone = true
    · rw [if_pos hc] at h
      split at h
      · split at h
        · exact Except.noConfusion h
        · rename_i v2 hl
          injection h with h'
          rw [Prod.mk.injEq, Prod.mk.injEq] at h'
          obtain ⟨he1, he2, -⟩ := h'
          subst he1
          subst he2
          rw [if_neg (by simp [hnotnone _ hv])]
      · split at h
        · exact Except.noConfusion h
        · rename_i s2 hl
          injection h with h'
          rw [Prod.mk.injEq, Prod.mk.injEq] at h'
          obtain ⟨he1, he2, -⟩ := h'
          subst he1
          subst he2
          rw [if_neg (by simp [hnotnone _ hv])]
    · rw [if_neg hc] at h
      injection h with h'
      rw [Prod.mk.injEq, Prod.mk.injEq] at h'
      obtain ⟨he1, he2, -⟩ := h'
      subst he1
      subst he2
      rw [if_neg hc]
  · intro c c' v n h hv
    unfold ReplicaConfig.init_kwargs_access at h ⊢
    by_cases hc : c._init_kwargs.isNone = true
    · rw [if_pos hc] at h
      split at h
      · exact Except.noConfusion h
      · rename_i v2 hl
        injection h with h'
        rw [Prod.mk.injEq, Prod.mk.injEq] at h'
        obtain ⟨he1, he2, -⟩ := h'
        subst he1
        subst he2
        rw [if_neg (by simp [hnotnone _ hv])]
    · rw [if_neg hc] at h
      injection h with h'
      rw [Prod.mk.injEq, Prod.mk.injEq] at h'
      obtain ⟨he1, he2, -⟩ := h'
      subst he1
      subst he2
      rw [if_neg hc]
  · intro d a k o b s n r h
    obtain ⟨hcs, -, -, -, -, -, hdd, hia, hik, -, -, -⟩ :=
      create_ok_spec d a k o b s n r h
    have hA : (if a.isNone then PyVal.vtuple [] else a).isNone = false := by
      by_cases ha : a.isNone = true
      · rw [if_pos ha]; rfl
      · rw [if_neg ha]
        cases hx : a.isNone
        · rfl
        · exact absurd hx ha
    have hK : (if k.isNone then PyVal.vdict [] else k).isNone = false := by
      by_cases hk : k.isNone = true
      · rw [if_pos hk]; rfl
      · rw [if_neg hk]
        cases hx : k.isNone
        · rfl
        · exact absurd hx hk
    refine ⟨?_, ?_, ?_⟩
    · unfold ReplicaConfig.deployment_def_access
      rw [if_neg (by
        rw [hdd, PyVal.isNone_eq_false_of_callable_or_string d hcs]
        simp)]
      rw [hdd]
    · unfold ReplicaConfig.init_args_access
      rw [if_neg (by rw [hia, hA]; simp)]
      rw [hia]
    · unfold ReplicaConfig.init_kwargs_access
      rw [if_neg (by rw [hik, hK]; simp)]
      rw [hik]

/-- C9 counterexample to the claim as stated: on a config whose
`serialized_init_args` unpickles to Python `None`, the first access runs
the decode path (count 1) yet the cache slot remains `None`, so the next
access — the same state — runs the decode path again (count 1, never 0):
the decode is not invoked "at most once". -/
theorem lazy_accessor_caching_counterexample :
    sampleReplicaNonePayload.init_args_access =
      .ok (.vnone, sampleReplicaNonePayload, 1) ∧
    ¬ (sampleReplicaNonePayload.init_args_access =
        .ok (.vnone, sampleReplicaNonePayload, 0)) := by
  refine ⟨rfl, fun h => ?_⟩
  have h1 : sampleReplicaNonePayload.init_args_access =
      .ok (.vnone, sampleReplicaNonePayload, 1) := rfl
  have h2 := h1.symm.trans h
  injection h2 with h3
  have h4 := congrArg (fun t => t.2.2) h3
  exact Nat.noConfusion h4

/-- C9 witness: the caching half applied to the pickled-path sample (first
access caches `(1,)`, second access returns it with zero decodes), and the
`create` half applied to `create(class A, (1,), {"x": 2})` (no decode ever
runs). -/
theorem lazy_accessor_caching_witness :
    (ReplicaConfig.init_args_access
      ⟨"d", .vbytesPickled (.vclass "D"), .vbytesPickled (.vtuple [.vint 1]),
       .vbytesPickled (.vdict [("x", .vint 2)]), .vnone, .vtuple [.vint 1],
       .vnone, [("num_cpus", .qty 1)], none, none,
       [("CPU", 1), ("GPU", 0)], true⟩ =
      .ok (.vtuple [.vint 1],
        ⟨"d", .vbytesPickled (.vclass "D"), .vbytesPickled (.vtuple [.vint 1]),
         .vbytesPickled (.vdict [("x", .vint 2)]), .vnone, .vtuple [.vint 1],
         .vnone, [("num_cpus", .qty 1)], none, none,
         [("CPU", 1), ("GPU", 0)], true⟩, 0)) ∧
    (sampleCreated.deployment_def_access = .ok (.vclass "A", sampleCreated, 0) ∧
     sampleCreated.init_args_access = .ok (.vtuple [.vint 1], sampleCreated, 0) ∧
     sampleCreated.init_kwargs_access =
       .ok (.vdict [("x", .vint 2)], sampleCreated, 0)) :=
  ⟨lazy_accessor_caching.1 sampleReplicaPickle
      ⟨"d", .vbytesPickled (.vclass "D"), .vbytesPickled (.vtuple [.vint 1]),
       .vbytesPickled (.vdict [("x", .vint 2)]), .vnone, .vtuple [.vint 1],
       .vnone, [("num_cpus", .qty 1)], none, none,
       [("CPU", 1), ("GPU", 0)], true⟩
      (.vtuple [.vint 1]) 1 rfl (fun hh => PyVal.noConfusion hh),
   lazy_accessor_caching.2.2.2 (.vclass "A") (.vtuple [.vint 1])
      (.vdict [("x", .vint 2)]) none none none none sampleCreated rfl⟩

/-! ## C2: `ReplicaConfig` wire round-trip -/

/-- C2: for any `ReplicaConfig` built by `create`, decoding its wire
encoding (with the matching default `needs_pickle=True`) succeeds, and the
decoded config's lazy accessors resolve to the original pre-serialization
`deployment_def`, `init_args` and `init_kwargs`. -/
theorem replica_config_roundtrip :
    ∀ (d a k : PyVal) (o : Option RayActorOptions)
      (b : Option (List ResourceBundle)) (s : Option String)
      (n : Option String) (r : ReplicaConfig),
      ReplicaConfig.create d a k o b s n = .ok r →
      ∃ r', ReplicaConfig.from_proto_bytes r.to_proto_bytes true = .ok r' ∧
        (r'.deployment_def_access).map (fun t => t.1) = .ok d ∧
        (r'.init_args_access).map (fun t => t.1) =
          .ok (if a.isNone then .vtuple [] else a) ∧
        (r'.init_kwargs_access).map (fun t => t.1) =
          .ok (if k.isNone then .vdict [] else k) := by
  intro d a k o b s n r h
  obtain ⟨hcs, hvo, hvp, hsd, hsa, hsk, hdd, hia, hik, hb, hs, hnp⟩ :=
    create_ok_spec d a k o b s n r h
  have hproto : r.to_proto_bytes =
      { deployment_def_name := r.deployment_def_name
        deployment_def :=
          .vbytesPickled d
        init_args := .vbytesPickled (if a.isNone then .vtuple [] else a)
        init_kwargs := .vbytesPickled (if k.isNone then .vdict [] else k)
        ray_actor_options := r.ray_actor_options
        placement_group_bundles := b
        placement_group_strategy := s.getD "" } := by
    unfold ReplicaConfig.to_proto_bytes ReplicaConfig.to_proto
    rw [hsd, hsa, hsk, hb, hs]
    rfl
  have hstr : ∀ str, s = some str → ¬ (str = "") := by
    intro str hseq hemp
    subst hseq
    subst hemp
    have hmem :=
      (((validatePGO_ok_iff (some "") b r.ray_actor_options).1 hvp).1 "" rfl)
    exact absurd hmem (by decide)
  refine ⟨⟨r.deployment_def_name, .vbytesPickled d,
    .vbytesPickled (if a.isNone then .vtuple [] else a),
    .vbytesPickled (if k.isNone then .vdict [] else k),
    .vnone, .vnone, .vnone, r.ray_actor_options, b, s,
    resourcesFromRayOptions r.ray_actor_options, true⟩, ?_, rfl, rfl, rfl⟩
  rw [hproto]
  unfold ReplicaConfig.from_proto_bytes ReplicaConfig.from_proto
  have hdecstrat :
      (if ({ deployment_def_name := r.deployment_def_name
             deployment_def := PyVal.vbytesPickled d
             init_args :=
               PyVal.vbytesPickled (if a.isNone then .vtuple [] else a)
             init_kwargs :=
               PyVal.vbytesPickled (if k.isNone then .vdict [] else k)
             ray_actor_options := r.ray_actor_options
             placement_group_bundles := b
             placement_group_strategy := s.getD "" } :
            ReplicaConfigProto).placement_group_strategy = "" then none
        else some (s.getD "")) = s := by
    cases s with
    | none => rfl
    | some str =>
      have := hstr str rfl
      simp only [Option.getD]
      rw [if_neg this]
  simp only [isEmptyBytes] at hdecstrat ⊢
  rw [hdecstrat]
  unfold ReplicaConfig.init
  simp only [validateRayActorOptions_idem (o.getD []) r.ray_actor_options hvo,
    hvp]
  rfl

/-- C2 witness: `replica_config_roundtrip` applied to
`create(class A, (1,), {"x": 2})` = `sampleCreated`, hypothesis discharged
by computation. -/
theorem replica_config_roundtrip_witness :
    ∃ r', ReplicaConfig.from_proto_bytes sampleCreated.to_proto_bytes true
        = .ok r' ∧
      (r'.deployment_def_access).map (fun t => t.1) = .ok (.vclass "A") ∧
      (r'.init_args_access).map (fun t => t.1) = .ok (.vtuple [.vint 1]) ∧
      (r'.init_kwargs_access).map (fun t => t.1) =
        .ok (.vdict [("x", .vint 2)]) :=
  replica_config_roundtrip (.vclass "A") (.vtuple [.vint 1])
    (.vdict [("x", .vint 2)]) none none none none sampleCreated rfl

/-! ## C1: `DeploymentConfig` wire round-trip -/

/-- Nested autoscaling round-trip: a valid `AutoscalingConfig` survives
encode-then-decode unchanged (the decoder re-validates). -/
theorem autoscaling_proto_roundtrip (a : AutoscalingConfig)
    (h : a.validB = true) :
    AutoscalingConfig.from_proto a.to_proto = .ok a := by
  unfold AutoscalingConfig.from_proto AutoscalingConfig.to_proto
    AutoscalingConfig.construct
  simp [h]

/-- C1 (amended): a valid `DeploymentConfig` round-trips through the wire
format field-for-field — including `user_config` through the pickled path
and through the pass-through path for *non-empty* bytes, and
`version=None` via the empty-string sentinel — provided `version` is not
the empty string (which would collide with the sentinel) and, on the
pass-through path (`needs_pickle()` false), `user_config` is `None` or a
non-empty byte string (empty bytes collide with the empty-bytes sentinel
and decode to `None`; a non-bytes value cannot be encoded at all on that
path). -/
theorem deployment_config_roundtrip :
    ∀ (c : DeploymentConfig),
      c.validB = true →
      (∀ ac ∈ c.autoscaling_config, ac.validB = true) →
      c.version ≠ some "" →
      (c.needs_pickle = false →
        c.user_config = .vnone ∨
        (∃ s, ¬(s = "") ∧ c.user_config = .vbytesRaw s) ∨
        (∃ w, c.user_config = .vbytesPickled w)) →
      c.roundtrip = .ok c := by
  intro c hv hac hver huc
  have hacrt : ∀ (oc : Option AutoscalingConfig),
      oc = c.autoscaling_config →
      (match oc.map AutoscalingConfig.to_proto with
        | none => (.ok none : Except ConfigError (Option AutoscalingConfig))
        | some ap =>
          match AutoscalingConfig.from_proto ap with
          | .ok a2 => .ok (some a2)
          | .error e => .error e) = .ok c.autoscaling_config := by
    intro oc hoc
    cases hax : oc with
    | none => rw [← hoc, hax]; rfl
    | some ax =>
      have hmem : ax ∈ c.autoscaling_config := by
        rw [← hoc, hax]; rfl
      have hrt := autoscaling_proto_roundtrip ax (hac ax hmem)
      rw [← hoc, hax]
      simp [Option.map, hrt]
  have hversion :
      (if c.version.getD "" = "" then (none : Option String)
       else some (c.version.getD "")) = c.version := by
    cases hv2 : c.version with
    | none => rfl
    | some vs =>
      have hne : ¬(vs = "") := by
        intro he
        subst he
        exact hver hv2
      simp [Option.getD, hne]
  unfold DeploymentConfig.roundtrip DeploymentConfig.to_proto_bytes
    DeploymentConfig.to_proto DeploymentConfig.from_proto_bytes
    DeploymentConfig.from_proto
  by_cases hnone : c.user_config.isNone = true
  · have hucn : c.user_config = .vnone := (PyVal.isNone_iff _).mp hnone
    simp only [hnone, if_true, isEmptyBytes]
    simp only [hacrt _ rfl, hversion]
    simp [hv, ← hucn]
  · simp only [hnone, if_false, Bool.false_eq_true]
    by_cases hnp : c.needs_pickle = true
    · simp only [hnp, if_true, pickleDumps, isEmptyBytes, cloudpickleLoads]
      have hnp2 : _needs_pickle c.deployment_language c.is_cross_language
          = true := hnp
      simp only [hnp2, if_true, Bool.false_eq_true, if_false]
      simp only [hacrt _ rfl, hversion]
      simp [hv]
    · have hnp3 : c.needs_pickle = false := by
        cases hx : c.needs_pickle
        · rfl
        · exact absurd hx hnp
      rcases huc hnp3 with hucn | ⟨s, hsne, hucr⟩ | ⟨w, hucp⟩
      · exact absurd ((PyVal.isNone_iff _).mpr hucn) (by simp [hnone])
      · have hbytes : c.user_config.isBytes = true := by
          rw [hucr]; rfl
        have hnp4 : _needs_pickle c.deployment_language c.is_cross_language
            = false := hnp3
        simp only [hnp3, Bool.false_eq_true, if_false, hbytes, if_true]
        rw [hucr]
        simp only [isEmptyBytes, hsne, beq_iff_eq, if_false, hnp4]
        simp only [hacrt _ rfl, hversion]
        rw [← hucr]
        simp [hv]
      · have hbytes : c.user_config.isBytes = true := by
          rw [hucp]; rfl
        have hnp4 : _needs_pickle c.deployment_language c.is_cross_language
            = false := hnp3
        simp only [hnp3, Bool.false_eq_true, if_false, hbytes, if_true]
        rw [hucp]
        simp only [isEmptyBytes, hnp4, Bool.false_eq_true, if_false]
        simp only [hacrt _ rfl, hversion]
        rw [← hucp]
        simp [hv]

/-- C1 counterexample to the claim as stated: the valid config
`sampleDeploymentEmptyBytes` (Java, not cross-language, so
`needs_pickle()` is false) has `user_config = b""`; encoding passes the
empty byte string through, and decoding maps the empty-bytes sentinel to
`None` — the round trip is not field-for-field. -/
theorem deployment_config_roundtrip_counterexample :
    DeploymentConfig.roundtrip sampleDeploymentEmptyBytes =
      .ok { sampleDeploymentEmptyBytes with user_config := .vnone } ∧
    ¬ (DeploymentConfig.roundtrip sampleDeploymentEmptyBytes =
        .ok sampleDeploymentEmptyBytes) := by
  refine ⟨rfl, fun h => ?_⟩
  have h1 : DeploymentConfig.roundtrip sampleDeploymentEmptyBytes =
      .ok { sampleDeploymentEmptyBytes with user_config := .vnone } := rfl
  have h2 := h1.symm.trans h
  injection h2 with h3
  have h4 := congrArg DeploymentConfig.user_config h3
  exact PyVal.noConfusion h4

/-- C1 witness: `deployment_config_roundtrip` applied to the concrete
valid config `sampleDeployment` (pickled `user_config`, nested
autoscaling config, `version="v1"`), hypotheses discharged by
computation. -/
theorem deployment_config_roundtrip_witness :
    DeploymentConfig.roundtrip sampleDeployment = .ok sampleDeployment :=
  deployment_config_roundtrip sampleDeployment (by decide)
    (by
      intro ac hac
      have hx := Option.mem_def.mp hac
      injection hx with he
      subst he
      decide)
    (by decide)
    (fun h => Bool.noConfusion h)

/-! ## C10: `from_default` override handling -/

/-- C10: `from_default` (a) fails with a `TypeError` carrying the list of
valid option names whenever some kwarg key is not a known field name (the
reported key is itself unknown); (b) skips any kwarg equal to the
`DEFAULT.VALUE` sentinel; (c) applies a single remaining override through
`__setattr__`, which runs that field's own validation. -/
theorem from_default_spec :
    (∀ (kwargs : List (String × KwVal)) (key : String) (v : KwVal),
      (key, v) ∈ kwargs → DeploymentConfig.fieldNames.contains key = false →
      ∃ k₀, DeploymentConfig.from_default kwargs =
          .error (.invalidOption k₀ DeploymentConfig.fieldNames) ∧
        DeploymentConfig.fieldNames.contains k₀ = false) ∧
    (∀ (kw₁ kw₂ : List (String × KwVal)) (k : String),
      DeploymentConfig.fieldNames.contains k = true →
      DeploymentConfig.from_default (kw₁ ++ (k, .kdefault) :: kw₂) =
        DeploymentConfig.from_default (kw₁ ++ kw₂)) ∧
    (∀ (k : String) (v : KwVal),
      DeploymentConfig.fieldNames.contains k = true →
      v.isDefaultSentinel = false →
      DeploymentConfig.from_default [(k, v)] =
        DeploymentConfig.setField DeploymentConfig.defaultConfig k v) := by
  refine ⟨?_, ?_, ?_⟩
  · intro kwargs key v hmem hkey
    have hsome : (kwargs.find?
        (fun kv => !(DeploymentConfig.fieldNames.contains kv.1))).isSome := by
      rw [List.find?_isSome]
      refine ⟨(key, v), hmem, ?_⟩
      show (!(DeploymentConfig.fieldNames.contains key)) = true
      rw [hkey]
      rfl
    obtain ⟨kv0, hfind⟩ := Option.isSome_iff_exists.mp hsome
    have hp := List.find?_some hfind
    refine ⟨kv0.1, ?_, ?_⟩
    · unfold DeploymentConfig.from_default
      rw [hfind]
    · have hp2 : (!(DeploymentConfig.fieldNames.contains kv0.1)) = true := hp
      rw [Bool.not_eq_true'] at hp2
      exact hp2
  · intro kw₁ kw₂ k hk
    unfold DeploymentConfig.from_default
    have h1 : List.find?
        (fun kv : String × KwVal => !(DeploymentConfig.fieldNames.contains kv.1))
        ((k, KwVal.kdefault) :: kw₂) =
        List.find?
          (fun kv : String × KwVal =>
            !(DeploymentConfig.fieldNames.contains kv.1)) kw₂ := by
      rw [List.find?_cons]
      have : (!(DeploymentConfig.fieldNames.contains k)) = false := by
        rw [hk]; rfl
      simp only [this]
    have h2 : List.filter
        (fun kv : String × KwVal => !kv.2.isDefaultSentinel)
        ((k, KwVal.kdefault) :: kw₂) =
        List.filter (fun kv : String × KwVal => !kv.2.isDefaultSentinel)
          kw₂ := by
      rw [List.filter_cons]
      simp only [KwVal.isDefaultSentinel, Bool.not_true, Bool.false_eq_true,
        if_false]
    rw [List.find?_append, List.find?_append, h1,
      List.filter_append, List.filter_append, h2]
  · intro k v hk hv
    unfold DeploymentConfig.from_default
    have hfind : ([(k, v)].find?
        (fun kv => !(DeploymentConfig.fieldNames.contains kv.1))) = none := by
      rw [List.find?_cons]
      have : (!(DeploymentConfig.fieldNames.contains k)) = false := by
        rw [hk]; rfl
      simp only [this]
      rfl
    have hfilter : ([(k, v)].filter
        (fun kv => !kv.2.isDefaultSentinel)) = [(k, v)] := by
      rw [List.filter_cons]
      simp only [hv, Bool.not_false, if_true]
      rfl
    rw [hfind, hfilter]
    unfold DeploymentConfig.applyOverrides
    cases hsf : DeploymentConfig.setField DeploymentConfig.defaultConfig k v with
    | ok c2 => simp [DeploymentConfig.applyOverrides]
    | error e => rfl

/-- C10 witness: the three halves of `from_default_spec` instantiated —
the unknown kwarg `foo=1` fails listing the valid names; the spec's
example `from_default(num_replicas=DEFAULT.VALUE,
max_concurrent_queries=5)` applies only the latter; a single override goes
through the validating `setField`. -/
theorem from_default_spec_witness :
    (∃ k₀, DeploymentConfig.from_default [("foo", .kint 1)] =
        .error (.invalidOption k₀ DeploymentConfig.fieldNames) ∧
      DeploymentConfig.fieldNames.contains k₀ = false) ∧
    (DeploymentConfig.from_default
        [("num_replicas", .kdefault), ("max_concurrent_queries", .kint 5)] =
      DeploymentConfig.from_default [("max_concurrent_queries", .kint 5)]) ∧
    (DeploymentConfig.from_default [("max_concurrent_queries", .kint 5)] =
      DeploymentConfig.setField DeploymentConfig.defaultConfig
        "max_concurrent_queries" (.kint 5)) :=
  ⟨from_default_spec.1 [("foo", .kint 1)] "foo" (.kint 1)
      (List.mem_singleton.mpr rfl) (by decide),
   from_default_spec.2.1 [] [("max_concurrent_queries", .kint 5)]
      "num_replicas" (by decide),
   from_default_spec.2.2 "max_concurrent_queries" (.kint 5) (by decide) rfl⟩
